import Mathlib

/-!
# app-all: telemetry work loop

A shallow embedding of `main.go`: a logrus logger writing JSON lines to a file,
an OpenTelemetry tracer and counter, and an endless loop that starts a span, logs
one correlated record, ends the span, adds one to the counter and sleeps five
seconds.

The external libraries (logrus, the OpenTelemetry SDK, `os`, `time`) are modelled
by small state transformers over a `World`; the outcome of every fallible library
call and the identifiers handed out by the tracer are inputs (`Env`).
-/

namespace AppAll

/-! ## Data model -/

/-- Severity levels of logrus, in the order of the library's constants. -/
inductive Level where
  | PanicLevel
  | FatalLevel
  | ErrorLevel
  | WarnLevel
  | InfoLevel
  | DebugLevel
  | TraceLevel
deriving DecidableEq, Repr

/-- Numeric value of a logrus level (`PanicLevel` is 0, `TraceLevel` is 6). -/
def Level.toNat : Level → Nat
  | .PanicLevel => 0
  | .FatalLevel => 1
  | .ErrorLevel => 2
  | .WarnLevel => 3
  | .InfoLevel => 4
  | .DebugLevel => 5
  | .TraceLevel => 6

/-- One structured log entry: logrus adds time, level and msg to the caller's fields. -/
structure LogRecord where
  time : Nat
  level : Level
  msg : String
  fields : List (String × String)
deriving DecidableEq, Repr

/-- Formatter installed on the logger. -/
inductive Formatter where
  | text
  | json (timestampFormat : String)
deriving DecidableEq, Repr

/-- Destination of the logger: the library default, an open file, or the nil
file handle that `os.OpenFile` returns together with an error. -/
inductive Writer where
  | stderr
  | file (path : String)
  | nilFile
deriving DecidableEq, Repr

/-- Configuration of the logrus standard logger. -/
structure Logger where
  formatter : Formatter
  out : Writer
  level : Level
deriving DecidableEq, Repr

/-- A line on standard error: a serialised record or plain text. -/
inductive ErrLine where
  | record (r : LogRecord)
  | text (s : String)
deriving DecidableEq, Repr

/-- Resource: the attribute set built once at startup. -/
structure Resource where
  attrs : List (String × String)
deriving DecidableEq, Repr

/-- Trace identifier: the bytes of a `[16]byte`. -/
structure TraceID where
  bytes : List Nat
deriving DecidableEq, Repr

/-- Span identifier: the bytes of a `[8]byte`. -/
structure SpanID where
  bytes : List Nat
deriving DecidableEq, Repr

structure TracerProvider where
  resource : Resource
deriving DecidableEq, Repr

structure Tracer where
  name : String
  resource : Resource
deriving DecidableEq, Repr

structure MeterProvider where
  resource : Resource
deriving DecidableEq, Repr

structure Meter where
  name : String
  resource : Resource
deriving DecidableEq, Repr

structure Int64Counter where
  name : String
  meter : String
  resource : Resource
deriving DecidableEq, Repr

/-- A span as recorded by the SDK: identity, name and the resource of its provider. -/
structure Span where
  traceID : TraceID
  spanID : SpanID
  name : String
  resource : Resource
deriving DecidableEq, Repr

/-- One call of `Add` on a counter, as seen by the meter provider. -/
structure Measurement where
  instrument : String
  delta : Int
  resource : Resource
deriving DecidableEq, Repr

/-- Observable actions, in the order they happen. -/
inductive Event where
  | StartSpan (s : Span)
  | Log (r : LogRecord)
  | EndSpan (s : Span)
  | IncrementCounter (delta : Int)
  | Sleep (d : Int)
  | ShutdownTracerProvider
  | ShutdownMeterProvider
deriving DecidableEq, Repr

/-- The five steps of one iteration of the work loop. -/
inductive StepKind where
  | StartSpan
  | LogCorrelated
  | EndSpan
  | IncrementCounter
  | Sleep
  | Shutdown
deriving DecidableEq, Repr

def Event.kind : Event → StepKind
  | .StartSpan _ => .StartSpan
  | .Log _ => .LogCorrelated
  | .EndSpan _ => .EndSpan
  | .IncrementCounter _ => .IncrementCounter
  | .Sleep _ => .Sleep
  | .ShutdownTracerProvider => .Shutdown
  | .ShutdownMeterProvider => .Shutdown

/-- Everything outside the program that decides a run: the result of each fallible
library call (`none` is success, `some e` is the rendered error value), the
identifiers the tracer gives to the k-th span it starts, and the attributes of
`resource.Environment()` (taken from the process environment) that the `WithResource`
option of the tracer provider and of the meter provider merges with the resource it
is given (empty when the environment sets none or the option takes the resource as
it is). -/
structure Env where
  openFileErr : Option String
  resourceErr : Option String
  traceExporterErr : Option String
  metricExporterErr : Option String
  counterErr : Option String
  tpShutdownErr : Option String
  mpShutdownErr : Option String
  newIDs : Nat → TraceID × SpanID
  traceResourceEnv : List (String × String)
  metricResourceEnv : List (String × String)

/-- State of the process and of what it has emitted so far. `counterTotal` is the
exact sum of the deltas the program has passed to `counter.Add`; `counterValue` is
the sum as the SDK keeps it for an `Int64Counter`, in 64-bit signed arithmetic. -/
structure World where
  clock : Nat
  stdout : List String
  stderr : List ErrLine
  logger : Logger
  handed : List LogRecord
  appLog : List LogRecord
  started : List Span
  ended : List Span
  openSpans : List Span
  counterTotal : Int
  counterValue : Int
  measurements : List Measurement
  globalTracerProvider : Option TracerProvider
  propagators : List String
  tpShutdown : Bool
  mpShutdown : Bool
  events : List Event
deriving DecidableEq, Repr

/-- Process start: the logrus defaults, nothing emitted, clock at zero. -/
def World.init : World :=
  { clock := 0, stdout := [], stderr := [],
    logger := { formatter := .text, out := .stderr, level := .InfoLevel },
    handed := [], appLog := [], started := [], ended := [], openSpans := [],
    counterTotal := 0, counterValue := 0, measurements := [],
    globalTracerProvider := none,
    propagators := [], tpShutdown := false, mpShutdown := false, events := [] }

/-! ## Library calls -/

/-- Nanoseconds in `time.Second`. -/
def Second : Int := 1000000000

/-- Table of `encoding/hex`. -/
def hextable : List Char := "0123456789abcdef".toList

/-- Two lowercase hexadecimal digits of one byte. -/
def hexByte (b : Nat) : List Char :=
  [hextable.getD (b % 256 / 16) '0', hextable.getD (b % 256 % 16) '0']

/-- Hexadecimal text of a trace identifier (`TraceID.String`). -/
def TraceID.String (t : TraceID) : String :=
  String.mk (t.bytes.flatMap hexByte)

/-- Result of `os.OpenFile(path, O_APPEND|O_CREATE|O_RDWR, 0666)`: the file opened
for appending, or the nil handle together with the error. -/
def osOpenFile (env : Env) (path : String) : Writer × Option String :=
  match env.openFileErr with
  | none => (.file path, none)
  | some e => (.nilFile, some e)

/-- Call `log.SetFormatter`. -/
def logSetFormatter (f : Formatter) (w : World) : World :=
  { w with logger := { w.logger with formatter := f } }

/-- Call `log.SetOutput`. -/
def logSetOutput (out : Writer) (w : World) : World :=
  { w with logger := { w.logger with out := out } }

/-- Call `log.SetLevel`. -/
def logSetLevel (level : Level) (w : World) : World :=
  { w with logger := { w.logger with level := level } }

/-- Text written by `fmt.Printf` goes to standard output. -/
def fmtPrintf (s : String) (w : World) : World :=
  { w with stdout := w.stdout ++ [s] }

/-- Level filter of logrus: `logger.level() >= level`. -/
def Logger.IsLevelEnabled (l : Logger) (level : Level) : Bool :=
  decide (level.toNat ≤ l.level.toNat)

/-- Hand a serialised record to the logger's output. A write to the nil file
fails and logrus reports the failure on standard error. -/
def logWrite (r : LogRecord) (w : World) : World :=
  let w1 : World := { w with handed := w.handed ++ [r],
                             events := w.events ++ [.Log r] }
  match w.logger.out with
  | .file _ => { w1 with appLog := w1.appLog ++ [r] }
  | .stderr => { w1 with stderr := w1.stderr ++ [.record r] }
  | .nilFile =>
    { w1 with stderr := w1.stderr ++ [.text "Failed to write to log, invalid argument"] }

/-- Entry logging of logrus: filtered by level, stamped with the clock. -/
def logLog (level : Level) (fields : List (String × String)) (msg : String)
    (w : World) : World :=
  if w.logger.IsLevelEnabled level then
    logWrite { time := w.clock, level := level, msg := msg, fields := fields } w
  else w

/-- Call `log.WithFields(fields).Info(msg)`. -/
def logInfo (fields : List (String × String)) (msg : String) (w : World) : World :=
  logLog .InfoLevel fields msg w

/-- Call `log.Fatalf`: logs at fatal level; the caller then exits with status 1. -/
def logFatalf (msg : String) (w : World) : World :=
  logLog .FatalLevel [] msg w

/-- Call `tracer.Start(ctx, name)` on a fresh context: a new root span whose
identifiers are the next ones of the tracer. -/
def tracerStart (env : Env) (t : Tracer) (name : String) (w : World) : Span × World :=
  let ids := env.newIDs w.started.length
  let span : Span :=
    { traceID := ids.1, spanID := ids.2, name := name, resource := t.resource }
  (span, { w with started := w.started ++ [span],
                  openSpans := w.openSpans ++ [span],
                  events := w.events ++ [.StartSpan span] })

/-- Call `span.End()`: a span that is not recording any more is left alone. -/
def spanEnd (s : Span) (w : World) : World :=
  if s ∈ w.openSpans then
    { w with ended := w.ended ++ [s],
             openSpans := w.openSpans.erase s,
             events := w.events ++ [.EndSpan s] }
  else w

/-- Addition of Go on `int64`: the sum is reduced into the range from -2^63 to
2^63 - 1 (two's complement wrap-around). -/
def wrapInt64 (x : Int) : Int := (x + 2 ^ 63) % 2 ^ 64 - 2 ^ 63

/-- Call `counter.Add(ctx, delta)`: the measurement goes to the meter provider, which
adds the delta to its `int64` sum for the instrument. -/
def counterAdd (c : Int64Counter) (delta : Int) (w : World) : World :=
  { w with counterTotal := w.counterTotal + delta,
           counterValue := wrapInt64 (w.counterValue + delta),
           measurements := w.measurements ++
             [{ instrument := c.name, delta := delta, resource := c.resource }],
           events := w.events ++ [.IncrementCounter delta] }

/-- Call `time.Sleep(d)`: the only place where the clock advances. -/
def timeSleep (d : Int) (w : World) : World :=
  { w with clock := w.clock + d.toNat, events := w.events ++ [.Sleep d] }

/-- Result of `resource.New` with the three `WithAttributes` options of `main`. -/
def resourceNew (env : Env) : Except String Resource :=
  match env.resourceErr with
  | some e => .error e
  | none =>
    .ok { attrs := [("service.name", "otel-docs"),
                    ("deployment.environment", "dev"),
                    ("service.version", "0.1")] }

/-- Result of `resource.Merge(a, b)`: every attribute of `b`, and the attributes of
`a` whose key `b` does not bind (on a common key the value of `b` wins). The set is
kept as an association list, the attributes of `b` first. -/
def resourceMerge (a b : Resource) : Resource :=
  { attrs := b.attrs ++ a.attrs.filter (fun kv => (b.attrs.lookup kv.1).isNone) }

/-- Outcome of a function that may end the process instead of returning. -/
inductive Result (α : Type) where
  | ok (a : α) (w : World)
  | exit (code : Nat) (w : World)

/-! ## The functions of `main.go` -/

/-- Source function `initLogger`: an open failure is printed and otherwise ignored;
the handle returned by `os.OpenFile` becomes the output of the logger either way. -/
def initLogger (env : Env) (w : World) : World :=
  let opened := osOpenFile env "/var/log/app/app.log"
  let f := opened.1
  let w1 :=
    match opened.2 with
    | some e => fmtPrintf ("error opening file: " ++ e) w
    | none => w
  let w2 := logSetFormatter (.json "2006-01-02T15:04:05-0700") w1
  let w3 := logSetOutput f w2
  logSetLevel .InfoLevel w3

/-- Source function `initMeter`; `metric.WithResource(r)` merges `r` over the resource
of the environment. -/
def initMeter (env : Env) (r : Resource) (w : World) : Result MeterProvider :=
  match env.metricExporterErr with
  | some e => .exit 1 (logFatalf ("new otlp metric grpc exporter failed: " ++ e) w)
  | none => .ok { resource := resourceMerge { attrs := env.metricResourceEnv } r } w

/-- Source function `initTracerProvider`; `sdktrace.WithResource(r)` merges `r` over
the resource of the environment. -/
def initTracerProvider (env : Env) (r : Resource) (w : World) : Result TracerProvider :=
  match env.traceExporterErr with
  | some e => .exit 1 (logFatalf ("failed to construct new exporter: " ++ e) w)
  | none =>
    let tp : TracerProvider :=
      { resource := resourceMerge { attrs := env.traceResourceEnv } r }
    .ok tp { w with globalTracerProvider := some tp,
                    propagators := ["tracecontext", "baggage"] }

/-- Source function `makeMetricSpanLog`, with the globals `tracer` and `counter`
passed explicitly. -/
def makeMetricSpanLog (env : Env) (tracer : Tracer) (counter : Int64Counter)
    (w : World) : World :=
  let started := tracerStart env tracer "work" w
  let span := started.1
  let w1 := started.2
  let w2 := logInfo
    [("service", "otel-docs"),
     ("env", "dev"),
     ("version", "0.1"),
     ("source", "app"),
     ("trace_id", span.traceID.String)] "Did Work" w1
  let w3 := spanEnd span w2
  counterAdd counter 1 w3

/-- Body of the `for` loop of `main`: one call of `makeMetricSpanLog`, then
`time.Sleep(5 * time.Second)`. -/
def loopBody (env : Env) (tracer : Tracer) (counter : Int64Counter) (w : World) : World :=
  timeSleep (5 * Second) (makeMetricSpanLog env tracer counter w)

/-- World after `n` completed iterations of the `for` loop entered in world `w`. -/
def workLoop (env : Env) (tracer : Tracer) (counter : Int64Counter) : Nat → World → World
  | 0, w => w
  | n + 1, w => workLoop env tracer counter n (loopBody env tracer counter w)

/-! ## Control flow of `main` -/

/-- A deferred call registered by `main`. -/
inductive Deferred where
  | shutdownTracerProvider (tp : TracerProvider)
  | shutdownMeterProvider (mp : MeterProvider)
deriving DecidableEq, Repr

/-- Program points of `main` (and of `makeMetricSpanLog` inside the loop), each
with the local variables that are live there. -/
inductive PC where
  | atInitLogger
  | atResourceNew
  | atInitTracerProvider (res : Resource)
  | atInitMeter (res : Resource)
  | atInt64Counter (mp : MeterProvider)
  | atStartSpan
  | atLog (span : Span)
  | atSpanEnd (span : Span)
  | atCounterAdd
  | atSleep
  | panicking
  | exited (code : Nat)
deriving DecidableEq, Repr

/-- Step of the work loop that a program point is about to perform, if any. -/
def PC.stage : PC → Option StepKind
  | .atStartSpan => some .StartSpan
  | .atLog _ => some .LogCorrelated
  | .atSpanEnd _ => some .EndSpan
  | .atCounterAdd => some .IncrementCounter
  | .atSleep => some .Sleep
  | _ => none

/-- Program points inside the `for` loop. -/
def PC.inLoop (pc : PC) : Bool := pc.stage.isSome

/-- The process at one instant: program point, package-level variables (nil until
assigned), pending deferred calls (last registered first) and the world. -/
structure Config where
  pc : PC
  tracer : Option Tracer
  meter : Option Meter
  counter : Option Int64Counter
  defers : List Deferred
  w : World
deriving DecidableEq, Repr

/-- Process start. -/
def Config.init : Config :=
  { pc := .atInitLogger, tracer := none, meter := none, counter := none,
    defers := [], w := World.init }

/-- One step of `main`; `none` once the process has exited. A failed
`log.Fatalf` guard exits with status 1 at once; a panic runs the deferred calls
and then exits with status 2. -/
def mainStep (env : Env) (c : Config) : Option Config :=
  match c.pc with
  | .atInitLogger => some { c with pc := .atResourceNew, w := initLogger env c.w }
  | .atResourceNew =>
    match resourceNew env with
    | .error e =>
      some { c with pc := .exited 1,
                    w := logFatalf ("failed to create resource: " ++ e) c.w }
    | .ok res => some { c with pc := .atInitTracerProvider res }
  | .atInitTracerProvider res =>
    match initTracerProvider env res c.w with
    | .exit code w => some { c with pc := .exited code, w := w }
    | .ok tp w =>
      some { c with pc := .atInitMeter res,
                    tracer := some { name := "client-tracer", resource := tp.resource },
                    defers := .shutdownTracerProvider tp :: c.defers,
                    w := w }
  | .atInitMeter res =>
    match initMeter env res c.w with
    | .exit code w => some { c with pc := .exited code, w := w }
    | .ok mp w =>
      some { c with pc := .atInt64Counter mp,
                    defers := .shutdownMeterProvider mp :: c.defers,
                    w := w }
  | .atInt64Counter mp =>
    let meter : Meter := { name := "otel-docs", resource := mp.resource }
    match env.counterErr with
    | some _ => some { c with pc := .panicking, meter := some meter, counter := none }
    | none =>
      some { c with pc := .atStartSpan, meter := some meter,
                    counter := some { name := "otel.docs.custom.metric",
                                      meter := meter.name,
                                      resource := meter.resource } }
  | .atStartSpan =>
    match c.tracer with
    | none => some { c with pc := .panicking }
    | some t =>
      let started := tracerStart env t "work" c.w
      some { c with pc := .atLog started.1, w := started.2 }
  | .atLog span =>
    some { c with pc := .atSpanEnd span,
                  w := logInfo
                    [("service", "otel-docs"),
                     ("env", "dev"),
                     ("version", "0.1"),
                     ("source", "app"),
                     ("trace_id", span.traceID.String)] "Did Work" c.w }
  | .atSpanEnd span => some { c with pc := .atCounterAdd, w := spanEnd span c.w }
  | .atCounterAdd =>
    match c.counter with
    | none => some { c with pc := .panicking }
    | some k => some { c with pc := .atSleep, w := counterAdd k 1 c.w }
  | .atSleep => some { c with pc := .atStartSpan, w := timeSleep (5 * Second) c.w }
  | .panicking =>
    match c.defers with
    | [] => some { c with pc := .exited 2 }
    | .shutdownMeterProvider _ :: ds =>
      let w := { c.w with mpShutdown := true,
                          events := c.w.events ++ [.ShutdownMeterProvider] }
      match env.mpShutdownErr with
      | some e =>
        some { c with pc := .exited 1, defers := ds,
                      w := logFatalf ("Error shutting down meter provider: " ++ e) w }
      | none => some { c with defers := ds, w := w }
    | .shutdownTracerProvider _ :: ds =>
      let w := { c.w with tpShutdown := true,
                          events := c.w.events ++ [.ShutdownTracerProvider] }
      match env.tpShutdownErr with
      | some e =>
        some { c with pc := .exited 1, defers := ds,
                      w := logFatalf ("Error shutting down tracer provider: " ++ e) w }
      | none => some { c with defers := ds, w := w }
  | .exited _ => none

/-- Configuration reached from `c` after `n` steps (an exited process stays put). -/
def run (env : Env) : Nat → Config → Config
  | 0, c => c
  | n + 1, c =>
    match mainStep env c with
    | none => c
    | some c' => run env n c'

/-- Source function `main`: the configuration of the process after `n` steps. -/
def main (env : Env) (n : Nat) : Config := run env n Config.init

/-- Startup succeeds: the resource, both exporters and the counter are created. -/
def Env.startupOk (env : Env) : Bool :=
  env.resourceErr.isNone && env.traceExporterErr.isNone &&
    env.metricExporterErr.isNone && env.counterErr.isNone

/-- Number of steps of a successful startup. -/
def startupSteps : Nat := 5

/-! ## Sample environments -/

/-- Identifiers of the k-th span of the samples: sixteen and eight bytes derived from k. -/
def sampleIDs (k : Nat) : TraceID × SpanID :=
  (⟨List.replicate 15 0 ++ [k + 1]⟩, ⟨List.replicate 7 0 ++ [k + 1]⟩)

/-- Every library call succeeds. -/
def envOk : Env :=
  { openFileErr := none, resourceErr := none, traceExporterErr := none,
    metricExporterErr := none, counterErr := none, tpShutdownErr := none,
    mpShutdownErr := none, newIDs := sampleIDs,
    traceResourceEnv := [], metricResourceEnv := [] }

/-- The process environment adds a resource attribute of its own. -/
def envResourceAttributes : Env :=
  { envOk with traceResourceEnv := [("team", "obs")],
               metricResourceEnv := [("team", "obs")] }

/-- The log file cannot be opened; everything else succeeds. -/
def envNoLogFile : Env := { envOk with openFileErr := some "permission denied" }

/-- The trace exporter cannot be constructed. -/
def envNoTraceExporter : Env := { envOk with traceExporterErr := some "no endpoint" }

/-- The metric exporter cannot be constructed. -/
def envNoMetricExporter : Env := { envOk with metricExporterErr := some "no endpoint" }

/-- Registration of the counter fails. -/
def envNoCounter : Env := { envOk with counterErr := some "invalid instrument name" }

/-! ## Auxiliary definitions for the statements -/

/-- The span that `makeMetricSpanLog` starts in world `w`. -/
def spanOf (env : Env) (t : Tracer) (w : World) : Span :=
  (tracerStart env t "work" w).1

/-- The record that `makeMetricSpanLog` builds in world `w`. -/
def recordOf (env : Env) (t : Tracer) (w : World) : LogRecord :=
  { time := w.clock, level := .InfoLevel, msg := "Did Work",
    fields := [("service", "otel-docs"), ("env", "dev"), ("version", "0.1"),
               ("source", "app"), ("trace_id", (spanOf env t w).traceID.String)] }

/-- Records that pass the level filter of the logger of `w`. -/
def emitted (w : World) (r : LogRecord) : List LogRecord :=
  if w.logger.IsLevelEnabled r.level then [r] else []

/-- Lines that reach the log file when `rs` are handed to the output of `w`. -/
def fileLines (w : World) (rs : List LogRecord) : List LogRecord :=
  match w.logger.out with
  | .file _ => rs
  | _ => []

/-- Lines that reach standard error when `rs` are handed to the output of `w`. -/
def errLines (w : World) (rs : List LogRecord) : List ErrLine :=
  match w.logger.out with
  | .file _ => []
  | .stderr => rs.map ErrLine.record
  | .nilFile => rs.map (fun _ => ErrLine.text "Failed to write to log, invalid argument")

/-- The resource that `resource.New` returns in `main`. -/
def theResource : Resource :=
  { attrs := [("service.name", "otel-docs"),
              ("deployment.environment", "dev"),
              ("service.version", "0.1")] }

/-- Resource of the tracer provider: the resource of `main` merged over the
environment. -/
def traceResource (env : Env) : Resource :=
  resourceMerge { attrs := env.traceResourceEnv } theResource

/-- Resource of the meter provider: the resource of `main` merged over the
environment. -/
def metricResource (env : Env) : Resource :=
  resourceMerge { attrs := env.metricResourceEnv } theResource

/-- Value of the global `tracer` after startup. -/
def theTracer (env : Env) : Tracer :=
  { name := "client-tracer", resource := traceResource env }

/-- Value of the global `meter` after startup. -/
def theMeter (env : Env) : Meter := { name := "otel-docs", resource := metricResource env }

/-- Value of the global `counter` after startup. -/
def theCounter (env : Env) : Int64Counter :=
  { name := "otel.docs.custom.metric", meter := "otel-docs",
    resource := metricResource env }

/-- Deferred calls pending once startup is over. -/
def theDefers (env : Env) : List Deferred :=
  [.shutdownMeterProvider { resource := metricResource env },
   .shutdownTracerProvider { resource := traceResource env }]

/-- World in which the loop is entered. -/
def entryWorld (env : Env) : World :=
  { initLogger env World.init with
    globalTracerProvider := some { resource := traceResource env },
    propagators := ["tracecontext", "baggage"] }

/-- Configuration at the head of the loop, with the globals of a finished startup. -/
def loopHead (env : Env) (w : World) : Config :=
  { pc := .atStartSpan, tracer := some (theTracer env), meter := some (theMeter env),
    counter := some (theCounter env), defers := theDefers env, w := w }

/-- World after `n` completed iterations of the loop of `main`. -/
def afterIterations (env : Env) (n : Nat) : World :=
  workLoop env (theTracer env) (theCounter env) n (entryWorld env)

/-- Order of the statements in the body of the loop of `main` (with the body of
`makeMetricSpanLog` inlined): the step that follows each step. -/
def StepKind.next : StepKind → StepKind
  | .StartSpan => .LogCorrelated
  | .LogCorrelated => .EndSpan
  | .EndSpan => .IncrementCounter
  | .IncrementCounter => .Sleep
  | .Sleep => .StartSpan
  | .Shutdown => .Shutdown

/-- Invariant of the reachable configurations: the globals are assigned before they
are used and no shutdown has run while `main` is before or inside the loop. -/
def Config.wellFormed (c : Config) : Prop :=
  match c.pc with
  | .atInitLogger => c.w.tpShutdown = false ∧ c.w.mpShutdown = false
  | .atResourceNew => c.w.tpShutdown = false ∧ c.w.mpShutdown = false
  | .atInitTracerProvider _ => c.w.tpShutdown = false ∧ c.w.mpShutdown = false
  | .atInitMeter _ =>
    c.tracer.isSome = true ∧ c.w.tpShutdown = false ∧ c.w.mpShutdown = false
  | .atInt64Counter _ =>
    c.tracer.isSome = true ∧ c.w.tpShutdown = false ∧ c.w.mpShutdown = false
  | .panicking => True
  | .exited _ => True
  | _ =>
    c.tracer.isSome = true ∧ c.counter.isSome = true ∧
      c.w.tpShutdown = false ∧ c.w.mpShutdown = false

/-- Order of the steps of one iteration as the specification gives it, with the
counter incremented before the span is ended. -/
def specifiedOrder : List StepKind :=
  [.StartSpan, .LogCorrelated, .IncrementCounter, .EndSpan, .Sleep]

/-- Keys and values of the three resource attributes. -/
def resourceAttributes : List (String × String) :=
  [("service.name", "otel-docs"), ("deployment.environment", "dev"),
   ("service.version", "0.1")]

/-- Text of a record logged by `makeMetricSpanLog`. -/
def didWork : String := "Did Work"

/-- Part of the startup that still lies ahead of a program point contains a failing
call: the trace exporter, the metric exporter or the counter registration. -/
def failureAhead (env : Env) : PC → Prop
  | .atInitLogger =>
    env.traceExporterErr ≠ none ∨ env.metricExporterErr ≠ none ∨ env.counterErr ≠ none
  | .atResourceNew =>
    env.traceExporterErr ≠ none ∨ env.metricExporterErr ≠ none ∨ env.counterErr ≠ none
  | .atInitTracerProvider _ =>
    env.traceExporterErr ≠ none ∨ env.metricExporterErr ≠ none ∨ env.counterErr ≠ none
  | .atInitMeter _ => env.metricExporterErr ≠ none ∨ env.counterErr ≠ none
  | .atInt64Counter _ => env.counterErr ≠ none
  | .panicking => True
  | .exited _ => True
  | _ => False

/-- Invariant of a run whose startup fails: the loop has not been entered, no span
has been started, the counter is untouched and only fatal records have been logged. -/
def Config.beforeLoop (env : Env) (c : Config) : Prop :=
  failureAhead env c.pc ∧ c.w.started = [] ∧ c.w.counterTotal = 0 ∧
    c.w.measurements = [] ∧
    ∀ r ∈ c.w.handed, r.level = .FatalLevel ∧ r.msg ≠ didWork

/-- A signal carries the three resource attributes when each of the three keys is
bound to its value in the attributes of the signal. -/
def carriesResource (attrs : List (String × String)) : Bool :=
  resourceAttributes.all (fun kv => attrs.lookup kv.1 == some kv.2)

/-! ## Lemmas -/

theorem logLog_eq (level : Level) (fields : List (String × String)) (msg : String)
    (w : World) :
    logLog level fields msg w =
      { w with
        handed := w.handed ++ emitted w ⟨w.clock, level, msg, fields⟩,
        appLog := w.appLog ++ fileLines w (emitted w ⟨w.clock, level, msg, fields⟩),
        stderr := w.stderr ++ errLines w (emitted w ⟨w.clock, level, msg, fields⟩),
        events := w.events ++ (emitted w ⟨w.clock, level, msg, fields⟩).map Event.Log } := by
  unfold logLog emitted fileLines errLines logWrite
  by_cases h : w.logger.IsLevelEnabled level = true
  · simp only [h, if_true]
    cases ho : w.logger.out <;> simp
  · simp only [h]
    cases ho : w.logger.out <;> simp

theorem makeMetricSpanLog_eq (env : Env) (t : Tracer) (k : Int64Counter) (w : World) :
    makeMetricSpanLog env t k w =
      { w with
        started := w.started ++ [spanOf env t w],
        ended := w.ended ++ [spanOf env t w],
        openSpans := (w.openSpans ++ [spanOf env t w]).erase (spanOf env t w),
        handed := w.handed ++ emitted w (recordOf env t w),
        appLog := w.appLog ++ fileLines w (emitted w (recordOf env t w)),
        stderr := w.stderr ++ errLines w (emitted w (recordOf env t w)),
        counterTotal := w.counterTotal + 1,
        counterValue := wrapInt64 (w.counterValue + 1),
        measurements := w.measurements ++ [⟨k.name, 1, k.resource⟩],
        events := w.events ++ [.StartSpan (spanOf env t w)] ++
          (emitted w (recordOf env t w)).map Event.Log ++
          [.EndSpan (spanOf env t w), .IncrementCounter 1] } := by
  simp only [makeMetricSpanLog, logInfo, logLog_eq]
  simp [tracerStart, spanEnd, counterAdd, spanOf, recordOf, emitted, fileLines, errLines]

theorem run_add (env : Env) (a b : Nat) (c : Config) :
    run env (a + b) c = run env b (run env a c) := by
  induction a generalizing c with
  | zero => simp [run]
  | succ a ih =>
    rw [Nat.succ_add]
    simp only [run]
    cases h : mainStep env c with
    | none =>
      simp only []
      cases b with
      | zero => rfl
      | succ b => simp [run, h]
    | some c' => simp only []; exact ih c'

theorem run_iteration (env : Env) (w : World) :
    run env 5 (loopHead env w) =
      loopHead env (loopBody env (theTracer env) (theCounter env) w) := rfl

theorem run_iterations (env : Env) (n : Nat) (w : World) :
    run env (5 * n) (loopHead env w) =
      loopHead env (workLoop env (theTracer env) (theCounter env) n w) := by
  induction n generalizing w with
  | zero => rfl
  | succ n ih =>
    rw [Nat.mul_succ, Nat.add_comm, run_add, run_iteration, ih]
    rfl

theorem main_startup (env : Env) (h : env.startupOk = true) :
    main env startupSteps = loopHead env (entryWorld env) := by
  simp only [Env.startupOk, Bool.and_eq_true, Option.isNone_iff_eq_none] at h
  obtain ⟨⟨⟨h1, h2⟩, h3⟩, h4⟩ := h
  simp [main, startupSteps, run, mainStep, Config.init, resourceNew, initTracerProvider,
    initMeter, h1, h2, h3, h4, loopHead, entryWorld, theTracer, theMeter, theCounter,
    theDefers, theResource, traceResource, metricResource]

theorem main_loop (env : Env) (h : env.startupOk = true) (n : Nat) :
    main env (startupSteps + 5 * n) = loopHead env (afterIterations env n) := by
  have h0 := main_startup env h
  unfold main at h0 ⊢
  rw [run_add, h0, run_iterations]
  rfl

theorem workLoop_succ (env : Env) (t : Tracer) (k : Int64Counter) (n : Nat) (w : World) :
    workLoop env t k (n + 1) w = loopBody env t k (workLoop env t k n w) := by
  induction n generalizing w with
  | zero => rfl
  | succ n ih =>
    show workLoop env t k (n + 1) (loopBody env t k w) = _
    rw [ih]
    rfl

theorem loopBody_eq (env : Env) (t : Tracer) (k : Int64Counter) (w : World) :
    loopBody env t k w =
      { w with
        clock := w.clock + 5000000000,
        started := w.started ++ [spanOf env t w],
        ended := w.ended ++ [spanOf env t w],
        openSpans := (w.openSpans ++ [spanOf env t w]).erase (spanOf env t w),
        handed := w.handed ++ emitted w (recordOf env t w),
        appLog := w.appLog ++ fileLines w (emitted w (recordOf env t w)),
        stderr := w.stderr ++ errLines w (emitted w (recordOf env t w)),
        counterTotal := w.counterTotal + 1,
        counterValue := wrapInt64 (w.counterValue + 1),
        measurements := w.measurements ++ [⟨k.name, 1, k.resource⟩],
        events := w.events ++ [.StartSpan (spanOf env t w)] ++
          (emitted w (recordOf env t w)).map Event.Log ++
          [.EndSpan (spanOf env t w), .IncrementCounter 1, .Sleep (5 * Second)] } := by
  simp only [loopBody, makeMetricSpanLog_eq, timeSleep]
  simp [Second]

theorem workLoop_logger (env : Env) (t : Tracer) (k : Int64Counter) (n : Nat) (w : World) :
    (workLoop env t k n w).logger = w.logger := by
  induction n with
  | zero => rfl
  | succ n ih => rw [workLoop_succ, loopBody_eq]; exact ih

theorem workLoop_clock (env : Env) (t : Tracer) (k : Int64Counter) (n : Nat) (w : World) :
    (workLoop env t k n w).clock = w.clock + 5000000000 * n := by
  induction n with
  | zero => rfl
  | succ n ih => rw [workLoop_succ, loopBody_eq]; simp only [ih]; ring

theorem workLoop_counterTotal (env : Env) (t : Tracer) (k : Int64Counter) (n : Nat)
    (w : World) : (workLoop env t k n w).counterTotal = w.counterTotal + n := by
  induction n with
  | zero => simp [workLoop]
  | succ n ih => rw [workLoop_succ, loopBody_eq]; simp only [ih]; push_cast; ring

theorem workLoop_spans (env : Env) (t : Tracer) (k : Int64Counter) (n : Nat) (w : World)
    (hopen : w.openSpans = []) (hend : w.ended = w.started) :
    (workLoop env t k n w).openSpans = [] ∧
      (workLoop env t k n w).ended = (workLoop env t k n w).started ∧
      (workLoop env t k n w).started.length = w.started.length + n := by
  induction n with
  | zero => exact ⟨hopen, hend, rfl⟩
  | succ n ih =>
    obtain ⟨h1, h2, h3⟩ := ih
    rw [workLoop_succ, loopBody_eq]
    simp [h1, h2, h3]
    omega

theorem workLoop_enabled (env : Env) (t : Tracer) (k : Int64Counter) (n : Nat) (w : World)
    (hl : w.logger.IsLevelEnabled .InfoLevel = true) :
    emitted (workLoop env t k n w) (recordOf env t (workLoop env t k n w)) =
      [recordOf env t (workLoop env t k n w)] := by
  simp [emitted, workLoop_logger, recordOf, hl]

theorem workLoop_handed (env : Env) (t : Tracer) (k : Int64Counter) (n : Nat) (w : World)
    (hl : w.logger.IsLevelEnabled .InfoLevel = true) :
    (workLoop env t k n w).handed =
      w.handed ++ (List.range n).map (fun i => recordOf env t (workLoop env t k i w)) := by
  induction n with
  | zero => simp [workLoop]
  | succ n ih =>
    rw [workLoop_succ, loopBody_eq]
    simp only [workLoop_enabled env t k n w hl, ih, List.range_succ, List.map_append,
      List.map_cons, List.map_nil, List.append_assoc]

theorem workLoop_appLog (env : Env) (t : Tracer) (k : Int64Counter) (n : Nat) (w : World)
    (hl : w.logger.IsLevelEnabled .InfoLevel = true) :
    (workLoop env t k n w).appLog =
      w.appLog ++
        fileLines w ((List.range n).map (fun i => recordOf env t (workLoop env t k i w))) := by
  have hf : ∀ (v : World) (rs : List LogRecord), v.logger = w.logger →
      fileLines v rs = fileLines w rs := by
    intro v rs hv
    simp [fileLines, hv]
  have happ : ∀ (a b : List LogRecord),
      fileLines w (a ++ b) = fileLines w a ++ fileLines w b := by
    intro a b
    unfold fileLines
    cases w.logger.out <;> simp
  induction n with
  | zero => simp [workLoop, fileLines]; cases w.logger.out <;> simp
  | succ n ih =>
    rw [workLoop_succ, loopBody_eq]
    simp only [workLoop_enabled env t k n w hl, ih, List.range_succ, List.map_append,
      List.map_cons, List.map_nil, List.append_assoc, hf _ _ (workLoop_logger env t k n w), happ]

theorem workLoop_started (env : Env) (t : Tracer) (k : Int64Counter) (n : Nat) (w : World) :
    (workLoop env t k n w).started =
      w.started ++ (List.range n).map (fun i => spanOf env t (workLoop env t k i w)) := by
  induction n with
  | zero => simp [workLoop]
  | succ n ih =>
    rw [workLoop_succ, loopBody_eq]
    simp only [ih, List.range_succ, List.map_append, List.map_cons, List.map_nil,
      List.append_assoc]

theorem entryWorld_facts (env : Env) :
    (entryWorld env).logger.level = .InfoLevel ∧
      (entryWorld env).logger.IsLevelEnabled .InfoLevel = true ∧
      (entryWorld env).clock = 0 ∧ (entryWorld env).handed = [] ∧
      (entryWorld env).appLog = [] ∧ (entryWorld env).started = [] ∧
      (entryWorld env).ended = [] ∧ (entryWorld env).openSpans = [] ∧
      (entryWorld env).counterTotal = 0 ∧ (entryWorld env).measurements = [] ∧
      (entryWorld env).tpShutdown = false ∧ (entryWorld env).mpShutdown = false ∧
      (entryWorld env).events = [] := by
  cases h : env.openFileErr <;>
    simp [entryWorld, initLogger, osOpenFile, logSetFormatter, logSetOutput, logSetLevel,
        World.init, h, fmtPrintf, Logger.IsLevelEnabled]

theorem entryWorld_out (env : Env) :
    (entryWorld env).logger.out =
      (match env.openFileErr with
       | none => Writer.file "/var/log/app/app.log"
       | some _ => Writer.nilFile) := by
  cases h : env.openFileErr <;> simp [entryWorld, initLogger, osOpenFile, logSetFormatter,
      logSetOutput, logSetLevel, World.init, h, fmtPrintf]

theorem logFatalf_frame (msg : String) (w : World) :
    (logFatalf msg w).counterTotal = w.counterTotal ∧
      (logFatalf msg w).started = w.started ∧
      (logFatalf msg w).ended = w.ended ∧
      (logFatalf msg w).openSpans = w.openSpans ∧
      (logFatalf msg w).clock = w.clock ∧
      (logFatalf msg w).measurements = w.measurements ∧
      (logFatalf msg w).tpShutdown = w.tpShutdown ∧
      (logFatalf msg w).mpShutdown = w.mpShutdown := by
  simp [logFatalf, logLog_eq]

theorem mainStep_counterTotal (env : Env) (c c' : Config) (h : mainStep env c = some c') :
    c'.w.counterTotal =
      c.w.counterTotal + (if c.pc = .atCounterAdd ∧ c.counter.isSome then 1 else 0) := by
  obtain ⟨pc, tr, me, co, ds, w⟩ := c
  cases pc <;> simp only [mainStep] at h
  case atInitLogger =>
    cases h
    cases ho : env.openFileErr <;> simp [initLogger, osOpenFile, logSetFormatter, logSetOutput,
        logSetLevel, ho, fmtPrintf]
  case atResourceNew =>
    cases hr : env.resourceErr <;> simp [resourceNew, hr] at h <;> cases h <;>
      simp [logFatalf_frame]
  case atInitTracerProvider res =>
    cases hr : env.traceExporterErr <;> simp [initTracerProvider, hr] at h <;> cases h <;>
      simp [logFatalf_frame]
  case atInitMeter res =>
    cases hr : env.metricExporterErr <;> simp [initMeter, hr] at h <;> cases h <;>
      simp [logFatalf_frame]
  case atInt64Counter mp =>
    cases hr : env.counterErr <;> simp [hr] at h <;> cases h <;> simp
  case atStartSpan =>
    cases tr <;> simp at h <;> cases h <;> simp [tracerStart]
  case atLog span =>
    cases h
    simp [logInfo, logLog_eq]
  case atSpanEnd span =>
    cases h
    simp only [spanEnd]
    split <;> simp
  case atCounterAdd =>
    cases co <;> simp at h <;> cases h <;> simp [counterAdd]
  case atSleep =>
    cases h
    simp [timeSleep]
  case panicking =>
    cases ds with
    | nil => simp at h; cases h; simp
    | cons d ds =>
      cases d <;> simp at h
      · cases hr : env.tpShutdownErr <;> simp [hr] at h <;> cases h <;>
          simp [logFatalf_frame]
      · cases hr : env.mpShutdownErr <;> simp [hr] at h <;> cases h <;>
          simp [logFatalf_frame]
  case exited code => cases h

theorem recordOf_trace_id (env : Env) (t : Tracer) (w : World) :
    (recordOf env t w).fields.lookup "trace_id" = some (spanOf env t w).traceID.String := by
  simp [recordOf, List.lookup]

theorem main_succ (env : Env) (n : Nat) :
    main env (n + 1) =
      (match mainStep env (main env n) with
       | none => main env n
       | some c' => c') := by
  unfold main
  rw [run_add]
  rfl

theorem wellFormed_step (env : Env) (c c' : Config) (hc : c.wellFormed)
    (h : mainStep env c = some c') : c'.wellFormed := by
  obtain ⟨pc, tr, me, co, ds, w⟩ := c
  cases pc <;> simp only [mainStep] at h <;> simp only [Config.wellFormed] at hc
  case atInitLogger =>
    cases h
    cases ho : env.openFileErr <;> simp_all [Config.wellFormed, initLogger, osOpenFile,
        logSetFormatter, logSetOutput, logSetLevel, ho, fmtPrintf]
  case atResourceNew =>
    cases hr : env.resourceErr <;> simp [resourceNew, hr] at h <;> cases h <;>
      simp_all [Config.wellFormed]
  case atInitTracerProvider res =>
    cases hr : env.traceExporterErr <;> simp [initTracerProvider, hr] at h <;> cases h <;>
      simp_all [Config.wellFormed]
  case atInitMeter res =>
    cases hr : env.metricExporterErr <;> simp [initMeter, hr] at h <;> cases h <;>
      simp_all [Config.wellFormed]
  case atInt64Counter mp =>
    cases hr : env.counterErr <;> simp [hr] at h <;> cases h <;>
      simp_all [Config.wellFormed]
  case atStartSpan =>
    cases tr <;> simp at h <;> cases h <;> simp_all [Config.wellFormed, tracerStart]
  case atLog span =>
    cases h
    simp_all [Config.wellFormed, logInfo, logLog_eq]
  case atSpanEnd span =>
    cases h
    simp only [Config.wellFormed, spanEnd]
    split <;> simp_all
  case atCounterAdd =>
    cases co <;> simp at h <;> cases h <;> simp_all [Config.wellFormed, counterAdd]
  case atSleep =>
    cases h
    simp_all [Config.wellFormed, timeSleep]
  case panicking =>
    cases ds with
    | nil => simp at h; cases h; simp [Config.wellFormed]
    | cons d ds =>
      cases d <;> simp at h
      · cases hr : env.tpShutdownErr <;> simp [hr] at h <;> cases h <;>
          simp [Config.wellFormed]
      · cases hr : env.mpShutdownErr <;> simp [hr] at h <;> cases h <;>
          simp [Config.wellFormed]
  case exited code => cases h

theorem wellFormed_main (env : Env) (n : Nat) : (main env n).wellFormed := by
  induction n with
  | zero => simp [main, run, Config.init, Config.wellFormed, World.init]
  | succ n ih =>
    rw [main_succ]
    cases h : mainStep env (main env n) with
    | none => exact ih
    | some c' => exact wellFormed_step env _ c' ih h

theorem loop_step (env : Env) (c : Config) (hc : c.wellFormed) (hl : c.pc.inLoop = true) :
    ∃ c', mainStep env c = some c' ∧ c'.pc.inLoop = true ∧
      c'.pc.stage = c.pc.stage.map StepKind.next ∧
      c.w.tpShutdown = false ∧ c.w.mpShutdown = false := by
  obtain ⟨pc, tr, me, co, ds, w⟩ := c
  cases pc <;> simp [PC.inLoop, PC.stage] at hl <;> simp only [Config.wellFormed] at hc
  case atStartSpan =>
    obtain ⟨t, rfl⟩ := Option.isSome_iff_exists.mp hc.1
    exact ⟨_, rfl, rfl, rfl, hc.2.2⟩
  case atLog span => exact ⟨_, rfl, rfl, rfl, hc.2.2⟩
  case atSpanEnd span => exact ⟨_, rfl, rfl, rfl, hc.2.2⟩
  case atCounterAdd =>
    obtain ⟨k, rfl⟩ := Option.isSome_iff_exists.mp hc.2.1
    exact ⟨_, rfl, rfl, rfl, hc.2.2⟩
  case atSleep => exact ⟨_, rfl, rfl, rfl, hc.2.2⟩

theorem loop_forever (env : Env) (n : Nat) (hl : (main env n).pc.inLoop = true) (k : Nat) :
    (main env (n + k)).pc.inLoop = true := by
  induction k with
  | zero => exact hl
  | succ k ih =>
    obtain ⟨c', h1, h2, _⟩ := loop_step env _ (wellFormed_main env (n + k)) ih
    rw [← Nat.add_assoc, main_succ, h1]
    exact h2

theorem main_loop_offset (env : Env) (h : env.startupOk = true) (q r : Nat) :
    main env (startupSteps + 5 * q + r) = run env r (loopHead env (afterIterations env q)) := by
  have h0 := main_loop env h q
  unfold main at h0 ⊢
  rw [run_add, h0]

theorem afterIterations_logger (env : Env) (n : Nat) :
    (afterIterations env n).logger = (entryWorld env).logger :=
  workLoop_logger env (theTracer env) (theCounter env) n (entryWorld env)

theorem afterIterations_enabled (env : Env) (n : Nat) :
    (afterIterations env n).logger.IsLevelEnabled .InfoLevel = true := by
  rw [afterIterations_logger]
  exact (entryWorld_facts env).2.1

theorem afterIterations_clock (env : Env) (n : Nat) :
    (afterIterations env n).clock = 5000000000 * n := by
  unfold afterIterations
  rw [workLoop_clock, (entryWorld_facts env).2.2.1]
  simp

theorem afterIterations_counterTotal (env : Env) (n : Nat) :
    (afterIterations env n).counterTotal = n := by
  unfold afterIterations
  rw [workLoop_counterTotal, (entryWorld_facts env).2.2.2.2.2.2.2.2.1]
  simp

theorem afterIterations_handed (env : Env) (n : Nat) :
    (afterIterations env n).handed =
      (List.range n).map (fun i => recordOf env (theTracer env) (afterIterations env i)) := by
  unfold afterIterations
  rw [workLoop_handed env (theTracer env) (theCounter env) n _ (entryWorld_facts env).2.1,
    (entryWorld_facts env).2.2.2.1]
  simp

theorem afterIterations_appLog (env : Env) (n : Nat) :
    (afterIterations env n).appLog =
      (match env.openFileErr with
       | none => (afterIterations env n).handed
       | some _ => []) := by
  rw [afterIterations_handed]
  unfold afterIterations
  rw [workLoop_appLog env (theTracer env) (theCounter env) n _ (entryWorld_facts env).2.1,
    (entryWorld_facts env).2.2.2.2.1]
  unfold fileLines
  rw [entryWorld_out]
  cases env.openFileErr <;> simp

theorem afterIterations_spans (env : Env) (n : Nat) :
    (afterIterations env n).openSpans = [] ∧
      (afterIterations env n).ended = (afterIterations env n).started ∧
      (afterIterations env n).started.length = n := by
  obtain ⟨_, _, _, _, _, hs, he, ho, _⟩ := entryWorld_facts env
  obtain ⟨h1, h2, h3⟩ :=
    workLoop_spans env (theTracer env) (theCounter env) n (entryWorld env) ho
      (by rw [he, hs])
  refine ⟨h1, h2, ?_⟩
  unfold afterIterations
  rw [h3, hs]
  simp

theorem startup_pcs (env : Env) (h : env.startupOk = true) (m : Nat) (hm : m < 5) :
    (main env m).pc ≠ .panicking ∧ (∀ code, (main env m).pc ≠ .exited code) ∧
      (main env m).w.clock = 0 := by
  simp only [Env.startupOk, Bool.and_eq_true, Option.isNone_iff_eq_none] at h
  obtain ⟨⟨⟨h1, h2⟩, h3⟩, h4⟩ := h
  interval_cases m <;>
    cases ho : env.openFileErr <;>
    simp [main, run, mainStep, Config.init, resourceNew, initTracerProvider, initMeter,
      h1, h2, h3, h4, initLogger, osOpenFile, logSetFormatter, logSetOutput, logSetLevel,
          World.init, fmtPrintf, ho]

theorem never_exits (env : Env) (h : env.startupOk = true) (m : Nat) :
    (main env m).pc ≠ .panicking ∧ ∀ code, (main env m).pc ≠ .exited code := by
  by_cases hm : m < 5
  · exact ⟨(startup_pcs env h m hm).1, (startup_pcs env h m hm).2.1⟩
  · have h5 : (main env 5).pc.inLoop = true := by
      have := main_startup env h
      simp only [startupSteps] at this
      rw [this]
      rfl
    have hl := loop_forever env 5 h5 (m - 5)
    have hm' : 5 + (m - 5) = m := by omega
    rw [hm'] at hl
    constructor
    · intro hp
      rw [hp] at hl
      simp [PC.inLoop, PC.stage] at hl
    · intro code hp
      rw [hp] at hl
      simp [PC.inLoop, PC.stage] at hl

theorem mainStep_clock (env : Env) (c c' : Config) (h : mainStep env c = some c') :
    c'.w.clock = c.w.clock + (if c.pc = .atSleep then 5000000000 else 0) := by
  obtain ⟨pc, tr, me, co, ds, w⟩ := c
  cases pc <;> simp only [mainStep] at h
  case atInitLogger =>
    cases h
    cases ho : env.openFileErr <;> simp [initLogger, osOpenFile, logSetFormatter, logSetOutput,
        logSetLevel, ho, fmtPrintf]
  case atResourceNew =>
    cases hr : env.resourceErr <;> simp [resourceNew, hr] at h <;> cases h <;>
      simp [logFatalf_frame]
  case atInitTracerProvider res =>
    cases hr : env.traceExporterErr <;> simp [initTracerProvider, hr] at h <;> cases h <;>
      simp [logFatalf_frame]
  case atInitMeter res =>
    cases hr : env.metricExporterErr <;> simp [initMeter, hr] at h <;> cases h <;>
      simp [logFatalf_frame]
  case atInt64Counter mp =>
    cases hr : env.counterErr <;> simp [hr] at h <;> cases h <;> simp
  case atStartSpan =>
    cases tr <;> simp at h <;> cases h <;> simp [tracerStart]
  case atLog span =>
    cases h
    simp [logInfo, logLog_eq]
  case atSpanEnd span =>
    cases h
    simp only [spanEnd]
    split <;> simp
  case atCounterAdd =>
    cases co <;> simp at h <;> cases h <;> simp [counterAdd]
  case atSleep =>
    cases h
    simp [timeSleep, Second]
  case panicking =>
    cases ds with
    | nil => simp at h; cases h; simp
    | cons d ds =>
      cases d <;> simp at h
      · cases hr : env.tpShutdownErr <;> simp [hr] at h <;> cases h <;>
          simp [logFatalf_frame]
      · cases hr : env.mpShutdownErr <;> simp [hr] at h <;> cases h <;>
          simp [logFatalf_frame]
  case exited code => cases h

theorem run_four (env : Env) (w : World) :
    run env 4 (loopHead env w) =
      { loopHead env w with
        pc := .atSleep,
        w := makeMetricSpanLog env (theTracer env) (theCounter env) w } :=
  rfl

theorem run_within_iteration (env : Env) (w : World) (r : Nat) (hr : r < 5) :
    (run env r (loopHead env w)).w.clock = w.clock ∧
      w.counterTotal ≤ (run env r (loopHead env w)).w.counterTotal ∧
      w.handed.length ≤ (run env r (loopHead env w)).w.handed.length ∧
      w.appLog.length ≤ (run env r (loopHead env w)).w.appLog.length ∧
      w.ended.length ≤ (run env r (loopHead env w)).w.ended.length := by
  interval_cases r <;>
    simp [run, mainStep, loopHead, tracerStart, logInfo, logLog_eq, spanEnd, counterAdd]

theorem run_three (env : Env) (w : World) :
    run env 3 (loopHead env w) =
      { loopHead env w with
        pc := .atCounterAdd,
        w := spanEnd (tracerStart env (theTracer env) "work" w).1
          (logInfo
            [("service", "otel-docs"), ("env", "dev"), ("version", "0.1"),
             ("source", "app"),
             ("trace_id", (tracerStart env (theTracer env) "work" w).1.traceID.String)]
            "Did Work" (tracerStart env (theTracer env) "work" w).2) } :=
  rfl

theorem workLoop_measurements (env : Env) (t : Tracer) (k : Int64Counter) (n : Nat)
    (w : World) :
    (workLoop env t k n w).measurements =
      w.measurements ++ List.replicate n ⟨k.name, 1, k.resource⟩ := by
  induction n with
  | zero => simp [workLoop]
  | succ n ih =>
    rw [workLoop_succ, loopBody_eq]
    simp only [ih, List.replicate_succ', List.append_assoc]

theorem workLoop_events (env : Env) (t : Tracer) (k : Int64Counter) (n : Nat) (w : World)
    (hl : w.logger.IsLevelEnabled .InfoLevel = true) :
    (workLoop env t k (n + 1) w).events =
      (workLoop env t k n w).events ++
        [.StartSpan (spanOf env t (workLoop env t k n w)),
         .Log (recordOf env t (workLoop env t k n w)),
         .EndSpan (spanOf env t (workLoop env t k n w)),
         .IncrementCounter 1,
         .Sleep (5 * Second)] := by
  rw [workLoop_succ, loopBody_eq]
  simp [workLoop_enabled env t k n w hl]

theorem fatal_msg_ne (p e : String) (hp : 8 < p.length) : p ++ e ≠ didWork := by
  intro h
  have hlen := congrArg String.length h
  rw [String.length_append] at hlen
  have h8 : didWork.length = 8 := by decide
  omega

theorem logFatalf_handed (msg : String) (w : World) (r : LogRecord)
    (hr : r ∈ (logFatalf msg w).handed) :
    r ∈ w.handed ∨ (r.level = .FatalLevel ∧ r.msg = msg) := by
  simp only [logFatalf, logLog_eq, emitted] at hr
  split at hr
  · simp only [List.mem_append, List.mem_singleton] at hr
    rcases hr with hr | hr
    · exact Or.inl hr
    · subst hr
      exact Or.inr ⟨rfl, rfl⟩
  · simp only [List.append_nil] at hr
    exact Or.inl hr

theorem beforeLoop_fatal (p e : String) (hp : 8 < p.length) (w w0 : World)
    (hw : w.handed = w0.handed)
    (h : ∀ r ∈ w0.handed, r.level = .FatalLevel ∧ r.msg ≠ didWork) :
    ∀ r ∈ (logFatalf (p ++ e) w).handed, r.level = .FatalLevel ∧ r.msg ≠ didWork := by
  intro r hr
  rcases logFatalf_handed _ _ _ hr with hr | ⟨h1, h2⟩
  · rw [hw] at hr
    exact h r hr
  · exact ⟨h1, by rw [h2]; exact fatal_msg_ne p e hp⟩

theorem beforeLoop_step (env : Env) (c c' : Config) (hc : c.beforeLoop env)
    (h : mainStep env c = some c') : c'.beforeLoop env := by
  obtain ⟨pc, tr, me, co, ds, w⟩ := c
  obtain ⟨hfa, hs, hct, hms, hh⟩ := hc
  simp only at hs hct hms hh
  cases pc <;> simp only [mainStep] at h <;> simp only [failureAhead] at hfa
  case atInitLogger =>
    cases h
    refine ⟨hfa, ?_, ?_, ?_, ?_⟩ <;>
      cases ho : env.openFileErr <;> simp [initLogger, osOpenFile, logSetFormatter, logSetOutput,
          logSetLevel, ho, fmtPrintf, hs, hct, hms]
    · exact hh
    · exact hh
  case atResourceNew =>
    cases hr : env.resourceErr with
    | none =>
      simp [resourceNew, hr] at h
      cases h
      exact ⟨hfa, hs, hct, hms, hh⟩
    | some e =>
      simp [resourceNew, hr] at h
      cases h
      refine ⟨trivial, ?_, ?_, ?_, ?_⟩
      · simp [logFatalf_frame, hs]
      · simp [logFatalf_frame, hct]
      · simp [logFatalf_frame, hms]
      · exact beforeLoop_fatal _ e (by decide) w w rfl hh
  case atInitTracerProvider res =>
    cases hr : env.traceExporterErr with
    | none =>
      simp [initTracerProvider, hr] at h
      cases h
      refine ⟨?_, hs, hct, hms, hh⟩
      simpa [failureAhead, hr] using hfa
    | some e =>
      simp [initTracerProvider, hr] at h
      cases h
      refine ⟨trivial, ?_, ?_, ?_, ?_⟩
      · simp [logFatalf_frame, hs]
      · simp [logFatalf_frame, hct]
      · simp [logFatalf_frame, hms]
      · exact beforeLoop_fatal _ e (by decide) w w rfl hh
  case atInitMeter res =>
    cases hr : env.metricExporterErr with
    | none =>
      simp [initMeter, hr] at h
      cases h
      refine ⟨?_, hs, hct, hms, hh⟩
      simpa [failureAhead, hr] using hfa
    | some e =>
      simp [initMeter, hr] at h
      cases h
      refine ⟨trivial, ?_, ?_, ?_, ?_⟩
      · simp [logFatalf_frame, hs]
      · simp [logFatalf_frame, hct]
      · simp [logFatalf_frame, hms]
      · exact beforeLoop_fatal _ e (by decide) w w rfl hh
  case atInt64Counter mp =>
    cases hr : env.counterErr with
    | none => exact absurd hr hfa
    | some e =>
      simp [hr] at h
      cases h
      exact ⟨trivial, hs, hct, hms, hh⟩
  case panicking =>
    cases ds with
    | nil =>
      simp at h
      cases h
      exact ⟨trivial, hs, hct, hms, hh⟩
    | cons d ds =>
      cases d <;> simp at h
      · cases hr : env.tpShutdownErr with
        | none =>
          simp [hr] at h
          cases h
          exact ⟨trivial, hs, hct, hms, hh⟩
        | some e =>
          simp [hr] at h
          cases h
          refine ⟨trivial, ?_, ?_, ?_, ?_⟩
          · simp [logFatalf_frame, hs]
          · simp [logFatalf_frame, hct]
          · simp [logFatalf_frame, hms]
          · exact beforeLoop_fatal _ e (by decide) _ w rfl hh
      · cases hr : env.mpShutdownErr with
        | none =>
          simp [hr] at h
          cases h
          exact ⟨trivial, hs, hct, hms, hh⟩
        | some e =>
          simp [hr] at h
          cases h
          refine ⟨trivial, ?_, ?_, ?_, ?_⟩
          · simp [logFatalf_frame, hs]
          · simp [logFatalf_frame, hct]
          · simp [logFatalf_frame, hms]
          · exact beforeLoop_fatal _ e (by decide) _ w rfl hh
  case exited code => cases h

theorem beforeLoop_main (env : Env)
    (hf : env.traceExporterErr ≠ none ∨ env.metricExporterErr ≠ none ∨
      env.counterErr ≠ none)
    (n : Nat) : (main env n).beforeLoop env := by
  induction n with
  | zero =>
    refine ⟨hf, rfl, rfl, rfl, ?_⟩
    intro r hr
    simp [main, run, Config.init, World.init] at hr
  | succ n ih =>
    rw [main_succ]
    cases h : mainStep env (main env n) with
    | none => exact ih
    | some c' => exact beforeLoop_step env _ c' ih h

theorem run_stuck (env : Env) (c : Config) (h : mainStep env c = none) (n : Nat) :
    run env n c = c := by
  cases n with
  | zero => rfl
  | succ n => simp [run, h]

theorem startup_failure_exit (env : Env)
    (hf : env.traceExporterErr ≠ none ∨ env.metricExporterErr ≠ none ∨
      env.counterErr ≠ none) :
    (main env 8).pc = .exited 1 ∨ (main env 8).pc = .exited 2 := by
  cases h1 : env.resourceErr <;> cases h2 : env.traceExporterErr <;>
    cases h3 : env.metricExporterErr <;> cases h4 : env.counterErr <;>
    cases h5 : env.mpShutdownErr <;> cases h6 : env.tpShutdownErr <;>
    simp [h2, h3, h4] at hf <;>
    simp [main, run, mainStep, Config.init, resourceNew, initTracerProvider, initMeter,
      h1, h2, h3, h4, h5, h6]

theorem failureAhead_not_inLoop (env : Env) (pc : PC) (h : failureAhead env pc) :
    pc.inLoop = false := by
  cases pc <;> simp [failureAhead] at h <;> rfl

theorem afterIterations_started (env : Env) (n : Nat) :
    (afterIterations env n).started =
      (List.range n).map (fun i => spanOf env (theTracer env) (afterIterations env i)) := by
  unfold afterIterations
  rw [workLoop_started, (entryWorld_facts env).2.2.2.2.2.1]
  simp

theorem afterIterations_measurements (env : Env) (n : Nat) :
    (afterIterations env n).measurements =
      List.replicate n ⟨(theCounter env).name, 1, (theCounter env).resource⟩ := by
  unfold afterIterations
  rw [workLoop_measurements, (entryWorld_facts env).2.2.2.2.2.2.2.2.2.1]
  simp

/-- On the path where the counter cannot be registered `main` panics before the loop
and the deferred shutdowns run, the meter provider first. -/
theorem panic_runs_deferred_shutdowns :
    (main envNoCounter 5).pc = .panicking ∧
      (main envNoCounter 8).pc = .exited 2 ∧
      (main envNoCounter 8).w.events = [.ShutdownMeterProvider, .ShutdownTracerProvider] ∧
      (main envNoCounter 8).w.mpShutdown = true ∧
      (main envNoCounter 8).w.tpShutdown = true := by
  decide

theorem wrapInt64_wrap_add (x y : Int) : wrapInt64 (wrapInt64 x + y) = wrapInt64 (x + y) := by
  unfold wrapInt64
  have h : (x + 2 ^ 63) % 2 ^ 64 - 2 ^ 63 + y + 2 ^ 63 = (x + 2 ^ 63) % 2 ^ 64 + y := by ring
  rw [h, Int.emod_add_emod]
  have h2 : x + 2 ^ 63 + y = x + y + 2 ^ 63 := by ring
  rw [h2]

theorem wrapInt64_of_range (x : Int) (h1 : -(2 ^ 63) ≤ x) (h2 : x < 2 ^ 63) :
    wrapInt64 x = x := by
  unfold wrapInt64
  rw [Int.emod_eq_of_lt (by omega) (by omega)]
  ring

theorem workLoop_counterValue (env : Env) (t : Tracer) (k : Int64Counter) (n : Nat)
    (w : World) (hw : wrapInt64 w.counterValue = w.counterValue) :
    (workLoop env t k n w).counterValue = wrapInt64 (w.counterValue + n) := by
  induction n with
  | zero => simpa [workLoop] using hw.symm
  | succ n ih =>
    rw [workLoop_succ, loopBody_eq]
    simp only [ih]
    rw [wrapInt64_wrap_add]
    push_cast
    rw [Int.add_assoc]

theorem afterIterations_counterValue (env : Env) (n : Nat) :
    (afterIterations env n).counterValue = wrapInt64 n := by
  have h0 : (entryWorld env).counterValue = 0 := by
    cases h : env.openFileErr <;>
      simp [entryWorld, initLogger, osOpenFile, logSetFormatter, logSetOutput, logSetLevel,
        World.init, h, fmtPrintf]
  unfold afterIterations
  rw [workLoop_counterValue _ _ _ _ _ (by rw [h0]; decide), h0]
  simp

theorem logFatalf_counterValue (msg : String) (w : World) :
    (logFatalf msg w).counterValue = w.counterValue := by
  simp [logFatalf, logLog_eq]

theorem mainStep_counterValue (env : Env) (c c' : Config) (h : mainStep env c = some c') :
    c'.w.counterValue =
      (if c.pc = .atCounterAdd ∧ c.counter.isSome then wrapInt64 (c.w.counterValue + 1)
       else c.w.counterValue) := by
  obtain ⟨pc, tr, me, co, ds, w⟩ := c
  cases pc <;> simp only [mainStep] at h
  case atInitLogger =>
    cases h
    cases ho : env.openFileErr <;>
      simp [initLogger, osOpenFile, logSetFormatter, logSetOutput, logSetLevel, ho, fmtPrintf]
  case atResourceNew =>
    cases hr : env.resourceErr <;> simp [resourceNew, hr] at h <;> cases h <;>
      simp [logFatalf_counterValue]
  case atInitTracerProvider res =>
    cases hr : env.traceExporterErr <;> simp [initTracerProvider, hr] at h <;> cases h <;>
      simp [logFatalf_counterValue]
  case atInitMeter res =>
    cases hr : env.metricExporterErr <;> simp [initMeter, hr] at h <;> cases h <;>
      simp [logFatalf_counterValue]
  case atInt64Counter mp =>
    cases hr : env.counterErr <;> simp [hr] at h <;> cases h <;> simp
  case atStartSpan =>
    cases tr <;> simp at h <;> cases h <;> simp [tracerStart]
  case atLog span =>
    cases h
    simp [logInfo, logLog_eq]
  case atSpanEnd span =>
    cases h
    simp only [spanEnd]
    split <;> simp
  case atCounterAdd =>
    cases co <;> simp at h <;> cases h <;> simp [counterAdd]
  case atSleep =>
    cases h
    simp [timeSleep]
  case panicking =>
    cases ds with
    | nil => simp at h; cases h; simp
    | cons d ds =>
      cases d <;> simp at h
      · cases hr : env.tpShutdownErr <;> simp [hr] at h <;> cases h <;>
          simp [logFatalf_counterValue]
      · cases hr : env.mpShutdownErr <;> simp [hr] at h <;> cases h <;>
          simp [logFatalf_counterValue]
  case exited code => cases h

theorem merge_lookup (a : List (String × String)) :
    (resourceMerge { attrs := a } { attrs := resourceAttributes }).attrs.lookup
        "service.name" = some "otel-docs" ∧
      (resourceMerge { attrs := a } { attrs := resourceAttributes }).attrs.lookup
        "deployment.environment" = some "dev" ∧
      (resourceMerge { attrs := a } { attrs := resourceAttributes }).attrs.lookup
        "service.version" = some "0.1" := by
  simp [resourceMerge, resourceAttributes, List.lookup]

theorem carriesResource_merge (a : List (String × String)) :
    carriesResource (resourceMerge { attrs := a } { attrs := resourceAttributes }).attrs =
      true := by
  obtain ⟨h1, h2, h3⟩ := merge_lookup a
  simp [carriesResource, List.all, h1, h2, h3]

theorem main_iteration_counterValue (env : Env) (h : env.startupOk = true) (n : Nat) :
    (main env (startupSteps + 5 * (n + 1))).w.counterValue =
      wrapInt64 ((main env (startupSteps + 5 * n)).w.counterValue + 1) := by
  rw [main_loop env h n, main_loop env h (n + 1)]
  show (workLoop env (theTracer env) (theCounter env) (n + 1) (entryWorld env)).counterValue
    = _
  rw [workLoop_succ, loopBody_eq]
  rfl

theorem run_within_iteration_value (env : Env) (w : World) (r : Nat) (hr : r < 5) :
    (run env r (loopHead env w)).w.counterValue =
      (if r = 4 then wrapInt64 (w.counterValue + 1) else w.counterValue) := by
  interval_cases r <;>
    simp [run, mainStep, loopHead, tracerStart, logInfo, logLog_eq, spanEnd, counterAdd]

theorem wrapInt64_natCast (n : Nat) (hn : n < 2 ^ 63) : wrapInt64 (n : Int) = n := by
  apply wrapInt64_of_range
  · have h2 : (0 : Int) ≤ (n : Int) := Int.ofNat_nonneg n
    have h3 : -(2 ^ 63 : Int) ≤ 0 := by norm_num
    exact le_trans h3 h2
  · exact_mod_cast hn

theorem failure_counterValue (env : Env)
    (hf : env.traceExporterErr ≠ none ∨ env.metricExporterErr ≠ none ∨
      env.counterErr ≠ none)
    (m : Nat) : (main env m).w.counterValue = 0 := by
  induction m with
  | zero => rfl
  | succ m ih =>
    rw [main_succ]
    cases h : mainStep env (main env m) with
    | none => exact ih
    | some c' =>
      have hpc : (main env m).pc ≠ .atCounterAdd := by
        intro hp
        have hl := failureAhead_not_inLoop env _ (beforeLoop_main env hf m).1
        rw [hp] at hl
        simp [PC.inLoop, PC.stage] at hl
      have hv := mainStep_counterValue env _ c' h
      simp only [hpc, false_and, if_false] at hv
      show c'.w.counterValue = 0
      rw [hv, ih]

/-! ## Claims -/

/-- C1 (correlation): every record that a call of `makeMetricSpanLog` hands to the
logger carries, under `trace_id`, the text of the trace identifier of the span that
the same call started, whatever identifiers the tracer hands out; and after any
number of completed iterations of the loop of `main` the i-th record carries the
trace identifier of the i-th span. -/
theorem C1_trace_id_correlation (env : Env) (h : env.startupOk = true) (n : Nat) :
    (∀ (tracer : Tracer) (counter : Int64Counter) (w : World),
      (makeMetricSpanLog env tracer counter w).started =
          w.started ++ [(tracerStart env tracer "work" w).1] ∧
        ∃ r, r.fields.lookup "trace_id" =
            some (tracerStart env tracer "work" w).1.traceID.String ∧
          (makeMetricSpanLog env tracer counter w).handed =
            w.handed ++ (if w.logger.IsLevelEnabled .InfoLevel = true then [r] else [])) ∧
    (main env (startupSteps + 5 * n)).w.handed.length = n ∧
    (main env (startupSteps + 5 * n)).w.started.length = n ∧
    (main env (startupSteps + 5 * n)).w.handed.map (fun r => r.fields.lookup "trace_id") =
      (main env (startupSteps + 5 * n)).w.started.map (fun s => some s.traceID.String) := by
  refine ⟨?_, ?_⟩
  · intro tracer counter w
    rw [makeMetricSpanLog_eq]
    exact ⟨rfl, recordOf env tracer w, recordOf_trace_id env tracer w, rfl⟩
  · obtain ⟨_, hl, _, hh, _, hs, _⟩ := entryWorld_facts env
    rw [main_loop env h n]
    simp only [loopHead, afterIterations]
    rw [workLoop_handed env (theTracer env) (theCounter env) n _ hl, workLoop_started, hh, hs]
    simp [recordOf_trace_id]

theorem C1_trace_id_correlation_witness :
    envOk.startupOk = true ∧
      (main envOk (startupSteps + 5 * 2)).w.handed.map
          (fun r => r.fields.lookup "trace_id") =
        (main envOk (startupSteps + 5 * 2)).w.started.map
          (fun s => some s.traceID.String) :=
  ⟨rfl, (C1_trace_id_correlation envOk rfl 2).2.2.2⟩

/-- C2 (no leaked spans): a call of `makeMetricSpanLog` starts exactly one span and
ends exactly that span before it returns, leaving as many spans open as before; after
`n` completed iterations of the loop of `main` no span is open, `n` spans have been
started and the ended spans are exactly the started ones. -/
theorem C2_one_span_started_and_ended (env : Env) (h : env.startupOk = true) (n : Nat) :
    (∀ (tracer : Tracer) (counter : Int64Counter) (w : World),
      (makeMetricSpanLog env tracer counter w).started =
          w.started ++ [(tracerStart env tracer "work" w).1] ∧
        (makeMetricSpanLog env tracer counter w).ended =
          w.ended ++ [(tracerStart env tracer "work" w).1] ∧
        (makeMetricSpanLog env tracer counter w).openSpans.length = w.openSpans.length ∧
        ((tracerStart env tracer "work" w).1 ∉ w.openSpans →
          (makeMetricSpanLog env tracer counter w).openSpans = w.openSpans)) ∧
    (main env (startupSteps + 5 * n)).pc = .atStartSpan ∧
    (main env (startupSteps + 5 * n)).w.openSpans = [] ∧
    (main env (startupSteps + 5 * n)).w.started.length = n ∧
    (main env (startupSteps + 5 * n)).w.ended.length = n ∧
    (main env (startupSteps + 5 * n)).w.ended = (main env (startupSteps + 5 * n)).w.started := by
  refine ⟨?_, ?_⟩
  · intro tracer counter w
    rw [makeMetricSpanLog_eq]
    refine ⟨rfl, rfl, ?_, ?_⟩
    · simp [spanOf, List.length_erase_of_mem]
    · intro hn
      have hn' : spanOf env tracer w ∉ w.openSpans := hn
      show (w.openSpans ++ [spanOf env tracer w]).erase (spanOf env tracer w) = w.openSpans
      rw [List.erase_append_right _ hn']
      simp
  · obtain ⟨_, _, _, _, _, hs, he, ho, _⟩ := entryWorld_facts env
    obtain ⟨h1, h2, h3⟩ :=
      workLoop_spans env (theTracer env) (theCounter env) n (entryWorld env) ho
        (by rw [he, hs])
    rw [main_loop env h n]
    simp only [loopHead, afterIterations]
    refine ⟨trivial, h1, ?_, ?_, h2⟩
    · rw [h3, hs]; simp
    · rw [h2, h3, hs]; simp

theorem C2_one_span_started_and_ended_witness :
    envOk.startupOk = true ∧
      (main envOk (startupSteps + 5 * 3)).w.openSpans = [] ∧
      (main envOk (startupSteps + 5 * 3)).w.started.length = 3 ∧
      (main envOk (startupSteps + 5 * 3)).w.ended.length = 3 :=
  ⟨rfl, (C2_one_span_started_and_ended envOk rfl 3).2.2.1,
    (C2_one_span_started_and_ended envOk rfl 3).2.2.2.1,
    (C2_one_span_started_and_ended envOk rfl 3).2.2.2.2.1⟩

/-- C3, as stated, fails: the counter is an `Int64Counter`, whose sum is kept in
64-bit signed arithmetic; after 2^63 completed iterations of a run where every call
succeeds the accumulated value is -2^63, not 2^63 times the increment 1. -/
theorem C3_counterexample :
    (main envOk (startupSteps + 5 * 2 ^ 63)).w.counterValue = -(2 ^ 63) ∧
    (main envOk (startupSteps + 5 * 2 ^ 63)).w.counterValue ≠ ((2 ^ 63 : Nat) : Int) * 1 := by
  have h := main_loop envOk rfl (2 ^ 63)
  have hv := afterIterations_counterValue envOk (2 ^ 63)
  have hw : wrapInt64 ((2 ^ 63 : Nat) : Int) = -(2 ^ 63) := by
    unfold wrapInt64
    norm_num
  rw [h]
  show (afterIterations envOk (2 ^ 63)).counterValue = -(2 ^ 63) ∧
    (afterIterations envOk (2 ^ 63)).counterValue ≠ ((2 ^ 63 : Nat) : Int) * 1
  rw [hv, hw]
  constructor
  · rfl
  · norm_num

/-- C3, amended: the loop is entered with a counter value of 0 and, for every `n`
below 2^63, after `n` completed iterations the accumulated value is `n` times the
increment 1, that is `n`; for any number of iterations it is that number reduced into
the 64-bit signed range, while the exact sum of the deltas passed to `counter.Add` is
the number of iterations; every call of `makeMetricSpanLog` adds exactly 1, and a step
of `main` changes the counter only when it is the `counter.Add` of
`makeMetricSpanLog`. -/
theorem C3_counter_total (env : Env) (h : env.startupOk = true) (n : Nat)
    (hn : n < 2 ^ 63) :
    (main env startupSteps).w.counterValue = 0 ∧
    (main env (startupSteps + 5 * n)).w.counterValue = (n : Int) * 1 ∧
    (main env (startupSteps + 5 * n)).w.counterValue = n ∧
    (∀ m : Nat, (main env (startupSteps + 5 * m)).w.counterValue = wrapInt64 m) ∧
    (∀ m : Nat, (main env (startupSteps + 5 * m)).w.counterTotal = m) ∧
    (∀ (tracer : Tracer) (counter : Int64Counter) (w : World),
      (makeMetricSpanLog env tracer counter w).counterValue =
          wrapInt64 (w.counterValue + 1) ∧
        (makeMetricSpanLog env tracer counter w).counterTotal = w.counterTotal + 1) ∧
    (∀ c c', mainStep env c = some c' →
      c'.w.counterValue =
          (if c.pc = .atCounterAdd ∧ c.counter.isSome then wrapInt64 (c.w.counterValue + 1)
           else c.w.counterValue) ∧
        c'.w.counterTotal =
          c.w.counterTotal + (if c.pc = .atCounterAdd ∧ c.counter.isSome then 1 else 0)) := by
  have hv : ∀ m : Nat, (main env (startupSteps + 5 * m)).w.counterValue = wrapInt64 m := by
    intro m
    rw [main_loop env h m]
    exact afterIterations_counterValue env m
  have hrange : wrapInt64 (n : Int) = n := by
    apply wrapInt64_of_range
    · have h2 : (0 : Int) ≤ (n : Int) := Int.ofNat_nonneg n
      have h3 : -(2 ^ 63 : Int) ≤ 0 := by norm_num
      exact le_trans h3 h2
    · exact_mod_cast hn
  refine ⟨?_, ?_, ?_, hv, ?_, ?_, ?_⟩
  · have h0 := hv 0
    simp only [Nat.mul_zero, Nat.add_zero] at h0
    rw [h0]
    decide
  · rw [hv n, hrange]; simp
  · rw [hv n, hrange]
  · intro m
    rw [main_loop env h m]
    exact afterIterations_counterTotal env m
  · intro tracer counter w
    rw [makeMetricSpanLog_eq]
    exact ⟨rfl, rfl⟩
  · intro c c' hc'
    exact ⟨mainStep_counterValue env c c' hc', mainStep_counterTotal env c c' hc'⟩

theorem C3_counter_total_witness :
    envOk.startupOk = true ∧ 4 < 2 ^ 63 ∧
      (main envOk (startupSteps + 5 * 4)).w.counterValue = ((4 : Nat) : Int) :=
  ⟨rfl, by norm_num, (C3_counter_total envOk rfl 4 (by norm_num)).2.2.1⟩

/-- C4 (log sink cannot be opened): `initLogger` prints the error, installs the nil
file as output and returns; `main` goes on, builds the resource and both emitters and
enters the loop; the process never panics or exits; every iteration starts one span,
ends it and adds 1 to the counter (to the exact sum of the deltas, and in 64-bit
signed arithmetic to the value the SDK keeps), while nothing reaches the log file. -/
theorem C4_log_open_failure_is_swallowed (env : Env) (e : String)
    (hf : env.openFileErr = some e) (h : env.startupOk = true) (n : Nat) :
    (initLogger env World.init).stdout = ["error opening file: " ++ e] ∧
    (initLogger env World.init).logger.out = .nilFile ∧
    main env 1 = { Config.init with pc := .atResourceNew, w := initLogger env World.init } ∧
    (main env startupSteps).pc = .atStartSpan ∧
    (main env startupSteps).tracer = some (theTracer env) ∧
    (main env startupSteps).counter = some (theCounter env) ∧
    (∀ m, (main env m).pc ≠ .panicking ∧ ∀ code, (main env m).pc ≠ .exited code) ∧
    (main env (startupSteps + 5 * n)).pc = .atStartSpan ∧
    (main env (startupSteps + 5 * (n + 1))).w.started =
      (main env (startupSteps + 5 * n)).w.started ++
        [(tracerStart env (theTracer env) "work" (main env (startupSteps + 5 * n)).w).1] ∧
    (main env (startupSteps + 5 * (n + 1))).w.ended =
      (main env (startupSteps + 5 * n)).w.ended ++
        [(tracerStart env (theTracer env) "work" (main env (startupSteps + 5 * n)).w).1] ∧
    (main env (startupSteps + 5 * (n + 1))).w.counterTotal =
      (main env (startupSteps + 5 * n)).w.counterTotal + 1 ∧
    (main env (startupSteps + 5 * n)).w.started.length = n ∧
    (main env (startupSteps + 5 * n)).w.ended.length = n ∧
    (main env (startupSteps + 5 * n)).w.openSpans = [] ∧
    (main env (startupSteps + 5 * n)).w.counterTotal = n ∧
    (main env (startupSteps + 5 * n)).w.appLog = [] ∧
    (main env (startupSteps + 5 * (n + 1))).w.counterValue =
      wrapInt64 ((main env (startupSteps + 5 * n)).w.counterValue + 1) := by
  obtain ⟨h1, h2, h3⟩ := afterIterations_spans env n
  have happ := afterIterations_appLog env n
  rw [hf] at happ
  refine ⟨?_, ?_, ?_, ?_, ?_, ?_, never_exits env h, ?_, ?_, ?_, ?_, ?_, ?_, ?_, ?_, ?_,
    main_iteration_counterValue env h n⟩
  · simp [initLogger, osOpenFile, logSetFormatter, logSetOutput, logSetLevel, hf, fmtPrintf,
      World.init]
  · simp [initLogger, osOpenFile, logSetFormatter, logSetOutput, logSetLevel, hf, fmtPrintf,
      World.init]
  · rfl
  · rw [main_startup env h]; rfl
  · rw [main_startup env h]; rfl
  · rw [main_startup env h]; rfl
  · rw [main_loop env h n]; rfl
  · rw [main_loop env h n, main_loop env h (n + 1)]
    show (workLoop env (theTracer env) (theCounter env) (n + 1) (entryWorld env)).started = _
    rw [workLoop_succ, loopBody_eq]
    rfl
  · rw [main_loop env h n, main_loop env h (n + 1)]
    show (workLoop env (theTracer env) (theCounter env) (n + 1) (entryWorld env)).ended = _
    rw [workLoop_succ, loopBody_eq]
    rfl
  · rw [main_loop env h n, main_loop env h (n + 1)]
    show (workLoop env (theTracer env) (theCounter env) (n + 1) (entryWorld env)).counterTotal = _
    rw [workLoop_succ, loopBody_eq]
    rfl
  · rw [main_loop env h n]; exact h3
  · rw [main_loop env h n]
    show (afterIterations env n).ended.length = n
    rw [h2, h3]
  · rw [main_loop env h n]; exact h1
  · rw [main_loop env h n]; exact afterIterations_counterTotal env n
  · rw [main_loop env h n]; exact happ

theorem C4_log_open_failure_is_swallowed_witness :
    envNoLogFile.openFileErr = some "permission denied" ∧
      envNoLogFile.startupOk = true ∧
      (initLogger envNoLogFile World.init).stdout =
        ["error opening file: " ++ "permission denied"] ∧
      (main envNoLogFile (startupSteps + 5 * 3)).pc = .atStartSpan ∧
      (main envNoLogFile (startupSteps + 5 * 3)).w.started.length = 3 ∧
      (main envNoLogFile (startupSteps + 5 * 3)).w.ended.length = 3 ∧
      (main envNoLogFile (startupSteps + 5 * 3)).w.counterTotal = 3 :=
  ⟨rfl, rfl, (C4_log_open_failure_is_swallowed envNoLogFile _ rfl rfl 3).1,
    (C4_log_open_failure_is_swallowed envNoLogFile _ rfl rfl 3).2.2.2.2.2.2.2.1,
    (C4_log_open_failure_is_swallowed envNoLogFile _ rfl rfl 3).2.2.2.2.2.2.2.2.2.2.2.1,
    (C4_log_open_failure_is_swallowed envNoLogFile _ rfl rfl 3).2.2.2.2.2.2.2.2.2.2.2.2.1,
    (C4_log_open_failure_is_swallowed envNoLogFile _ rfl rfl 3).2.2.2.2.2.2.2.2.2.2.2.2.2.2.1⟩

/-- C5 (failed startup): when the trace exporter or the metric exporter cannot be
constructed or the counter cannot be registered, the process has exited with a
non-zero status after at most 8 steps and stays exited; at no point of the run is it
inside the loop, no span is ever started, the counter is never incremented and no
"Did Work" record is ever logged. -/
theorem C5_startup_failure_exits (env : Env)
    (hf : env.traceExporterErr ≠ none ∨ env.metricExporterErr ≠ none ∨
      env.counterErr ≠ none) :
    (∃ code, code ≠ 0 ∧ (main env 8).pc = .exited code) ∧
    (∀ m, 8 ≤ m → main env m = main env 8) ∧
    (∀ m, (main env m).pc.inLoop = false ∧
      (main env m).w.started = [] ∧
      (main env m).w.counterTotal = 0 ∧
      (main env m).w.measurements = [] ∧
      ∀ r ∈ (main env m).w.handed, r.msg ≠ "Did Work") ∧
    ∀ m, (main env m).w.counterValue = 0 := by
  have hex := startup_failure_exit env hf
  refine ⟨?_, ?_, ?_, failure_counterValue env hf⟩
  · rcases hex with hex | hex
    · exact ⟨1, by decide, hex⟩
    · exact ⟨2, by decide, hex⟩
  · intro m hm
    obtain ⟨k, rfl⟩ : ∃ k, m = 8 + k := ⟨m - 8, by omega⟩
    have hstuck : mainStep env (main env 8) = none := by
      rcases hex with hex | hex <;> simp [mainStep, hex]
    show run env (8 + k) Config.init = _
    rw [run_add]
    exact run_stuck env _ hstuck k
  · intro m
    obtain ⟨h1, h2, h3, h4, h5⟩ := beforeLoop_main env hf m
    exact ⟨failureAhead_not_inLoop env _ h1, h2, h3, h4, fun r hr => (h5 r hr).2⟩

theorem C5_startup_failure_exits_witness :
    (envNoTraceExporter.traceExporterErr ≠ none ∨
        envNoTraceExporter.metricExporterErr ≠ none ∨
        envNoTraceExporter.counterErr ≠ none) ∧
      (∃ code, code ≠ 0 ∧ (main envNoTraceExporter 8).pc = .exited code) ∧
      ∀ m, (main envNoTraceExporter m).pc.inLoop = false ∧
        (main envNoTraceExporter m).w.started = [] ∧
        (main envNoTraceExporter m).w.counterTotal = 0 ∧
        (main envNoTraceExporter m).w.measurements = [] ∧
        ∀ r ∈ (main envNoTraceExporter m).w.handed, r.msg ≠ "Did Work" :=
  ⟨Or.inl (by decide),
    (C5_startup_failure_exits envNoTraceExporter (Or.inl (by decide))).1,
    (C5_startup_failure_exits envNoTraceExporter (Or.inl (by decide))).2.2.1⟩

/-- C6, as stated, fails: after one iteration of a run where every call succeeds,
the spans, the records and the measurements do not all carry the three resource
attributes; the record that was logged binds none of the three keys. -/
theorem C6_counterexample :
    ¬ ((∀ s ∈ (main envOk (startupSteps + 5)).w.started,
          carriesResource s.resource.attrs = true) ∧
        (∀ r ∈ (main envOk (startupSteps + 5)).w.handed,
          carriesResource r.fields = true) ∧
        (∀ m ∈ (main envOk (startupSteps + 5)).w.measurements,
          carriesResource m.resource.attrs = true)) ∧
    (main envOk (startupSteps + 5)).w.handed.map
        (fun r => (r.fields.lookup "service.name",
          r.fields.lookup "deployment.environment",
          r.fields.lookup "service.version")) =
      [(none, none, none)] := by
  decide

/-- C6, amended: every span and every counter measurement emitted by the loop carries
the three resource attributes service.name, deployment.environment and
service.version with the values "otel-docs", "dev" and "0.1" (its resource is the
resource of `main` merged over that of the environment); every log record carries the
same three values under the keys service, env and version, and binds none of the
three resource keys. -/
theorem C6_resource_attributes (env : Env) (h : env.startupOk = true) (n : Nat) :
    (∀ s ∈ (main env (startupSteps + 5 * n)).w.started,
      s.resource =
          resourceMerge { attrs := env.traceResourceEnv } { attrs := resourceAttributes } ∧
        carriesResource s.resource.attrs = true ∧
        s.resource.attrs.lookup "service.name" = some "otel-docs" ∧
        s.resource.attrs.lookup "deployment.environment" = some "dev" ∧
        s.resource.attrs.lookup "service.version" = some "0.1") ∧
    (∀ m ∈ (main env (startupSteps + 5 * n)).w.measurements,
      m.resource =
          resourceMerge { attrs := env.metricResourceEnv } { attrs := resourceAttributes } ∧
        carriesResource m.resource.attrs = true ∧
        m.resource.attrs.lookup "service.name" = some "otel-docs" ∧
        m.resource.attrs.lookup "deployment.environment" = some "dev" ∧
        m.resource.attrs.lookup "service.version" = some "0.1") ∧
    (∀ r ∈ (main env (startupSteps + 5 * n)).w.handed,
      r.fields.lookup "service" = some "otel-docs" ∧
      r.fields.lookup "env" = some "dev" ∧
      r.fields.lookup "version" = some "0.1" ∧
      r.fields.lookup "service.name" = none ∧
      r.fields.lookup "deployment.environment" = none ∧
      r.fields.lookup "service.version" = none) ∧
    (main env (startupSteps + 5 * n)).w.started.length = n ∧
    (main env (startupSteps + 5 * n)).w.measurements.length = n ∧
    (main env (startupSteps + 5 * n)).w.handed.length = n := by
  rw [main_loop env h n]
  simp only [loopHead]
  refine ⟨?_, ?_, ?_, ?_, ?_, ?_⟩
  · intro s hs
    rw [afterIterations_started] at hs
    simp only [List.mem_map, List.mem_range] at hs
    obtain ⟨i, _, rfl⟩ := hs
    exact ⟨rfl, carriesResource_merge _, merge_lookup _⟩
  · intro m hm
    rw [afterIterations_measurements] at hm
    obtain rfl := List.eq_of_mem_replicate hm
    exact ⟨rfl, carriesResource_merge _, merge_lookup _⟩
  · intro r hr
    rw [afterIterations_handed] at hr
    simp only [List.mem_map, List.mem_range] at hr
    obtain ⟨i, _, rfl⟩ := hr
    simp [recordOf, List.lookup]
  · rw [afterIterations_started]; simp
  · rw [afterIterations_measurements]; simp
  · rw [afterIterations_handed]; simp

theorem C6_resource_attributes_witness :
    envResourceAttributes.startupOk = true ∧
      (∀ s ∈ (main envResourceAttributes (startupSteps + 5 * 2)).w.started,
        s.resource =
            resourceMerge { attrs := envResourceAttributes.traceResourceEnv }
              { attrs := resourceAttributes } ∧
          carriesResource s.resource.attrs = true ∧
          s.resource.attrs.lookup "service.name" = some "otel-docs" ∧
          s.resource.attrs.lookup "deployment.environment" = some "dev" ∧
          s.resource.attrs.lookup "service.version" = some "0.1") ∧
      (main envResourceAttributes (startupSteps + 5 * 2)).w.handed.length = 2 :=
  ⟨rfl, (C6_resource_attributes envResourceAttributes rfl 2).1,
    (C6_resource_attributes envResourceAttributes rfl 2).2.2.2.2.2⟩

/-- C7 (one record per iteration): in the loop of `main` the logger admits level
info; every iteration hands exactly one more record to the logger's output, at level
info, with message "Did Work" and the fields service, env, version, source and
trace_id; after `n` completed iterations exactly `n` records have been handed over,
all of them of that form, and the log file holds all of them when it could be
opened. -/
theorem C7_one_info_record_per_iteration (env : Env) (h : env.startupOk = true) (n : Nat) :
    (main env (startupSteps + 5 * n)).w.logger.level = .InfoLevel ∧
    (main env (startupSteps + 5 * n)).w.logger.IsLevelEnabled .InfoLevel = true ∧
    (main env (startupSteps + 5 * (n + 1))).w.handed =
      (main env (startupSteps + 5 * n)).w.handed ++
        [{ time := (main env (startupSteps + 5 * n)).w.clock,
           level := .InfoLevel,
           msg := "Did Work",
           fields :=
             [("service", "otel-docs"), ("env", "dev"), ("version", "0.1"),
              ("source", "app"),
              ("trace_id",
                (tracerStart env (theTracer env) "work"
                  (main env (startupSteps + 5 * n)).w).1.traceID.String)] }] ∧
    (main env (startupSteps + 5 * n)).w.handed.length = n ∧
    (∀ r ∈ (main env (startupSteps + 5 * n)).w.handed,
      r.level = .InfoLevel ∧ r.msg = "Did Work" ∧
        ∃ tid, r.fields =
          [("service", "otel-docs"), ("env", "dev"), ("version", "0.1"),
           ("source", "app"), ("trace_id", tid)]) ∧
    (main env (startupSteps + 5 * n)).w.appLog =
      (match env.openFileErr with
       | none => (main env (startupSteps + 5 * n)).w.handed
       | some _ => []) := by
  rw [main_loop env h n, main_loop env h (n + 1)]
  simp only [loopHead]
  refine ⟨?_, afterIterations_enabled env n, ?_, ?_, ?_, afterIterations_appLog env n⟩
  · rw [afterIterations_logger]
    exact (entryWorld_facts env).1
  · rw [afterIterations_handed env (n + 1), afterIterations_handed env n, List.range_succ]
    simp [recordOf, spanOf]
  · rw [afterIterations_handed]
    simp
  · intro r hr
    rw [afterIterations_handed] at hr
    simp only [List.mem_map, List.mem_range] at hr
    obtain ⟨i, _, rfl⟩ := hr
    exact ⟨rfl, rfl, _, rfl⟩

theorem C7_one_info_record_per_iteration_witness :
    envOk.startupOk = true ∧
      (main envOk (startupSteps + 5 * 2)).w.handed.length = 2 ∧
      ∀ r ∈ (main envOk (startupSteps + 5 * 2)).w.handed,
        r.level = .InfoLevel ∧ r.msg = "Did Work" ∧
          ∃ tid, r.fields =
            [("service", "otel-docs"), ("env", "dev"), ("version", "0.1"),
             ("source", "app"), ("trace_id", tid)] :=
  ⟨rfl, (C7_one_info_record_per_iteration envOk rfl 2).2.2.2.1,
    (C7_one_info_record_per_iteration envOk rfl 2).2.2.2.2.1⟩

/-- C8 (period of five seconds): the loop is entered at time 0 and a step of `main`
advances the clock only when it is the sleep, by exactly 5 seconds; so the k-th call
of `makeMetricSpanLog` (k at least 1) has returned at time 5 * (k - 1) seconds, with k
spans ended, k records handed over and a counter total of k; and whenever the clock
shows 12 seconds or more, at least 2 iterations are complete, at least 2 records
have been handed over (and written to the file if it could be opened) and the
counter total is at least 2. The counter total is the exact sum of the deltas; the
value the SDK keeps in 64-bit signed arithmetic is k as well for k below 2^63, and at
least 2 from 12 seconds on until the clock reaches 5 * (2^63 - 1) seconds. -/
theorem C8_five_second_period (env : Env) (h : env.startupOk = true) :
    (main env startupSteps).w.clock = 0 ∧
    (∀ c c', mainStep env c = some c' →
      c'.w.clock = c.w.clock + (if c.pc = .atSleep then 5 * 1000000000 else 0)) ∧
    (∀ k, 1 ≤ k →
      (main env (startupSteps + 5 * (k - 1) + 4)).pc = .atSleep ∧
      (main env (startupSteps + 5 * (k - 1) + 4)).w.clock = 5 * (k - 1) * 1000000000 ∧
      (main env (startupSteps + 5 * (k - 1) + 4)).w.counterTotal = k ∧
      (main env (startupSteps + 5 * (k - 1) + 4)).w.handed.length = k ∧
      (main env (startupSteps + 5 * (k - 1) + 4)).w.ended.length = k ∧
      (main env (startupSteps + 5 * (k - 1) + 5)).pc = .atStartSpan ∧
      (main env (startupSteps + 5 * (k - 1) + 5)).w.clock = 5 * k * 1000000000) ∧
    (∀ m, 12 * 1000000000 ≤ (main env m).w.clock →
      2 ≤ (main env m).w.counterTotal ∧
      2 ≤ (main env m).w.handed.length ∧
      2 ≤ (main env m).w.ended.length ∧
      (env.openFileErr = none → 2 ≤ (main env m).w.appLog.length)) ∧
    (∀ k, 1 ≤ k → k < 2 ^ 63 →
      (main env (startupSteps + 5 * (k - 1) + 4)).w.counterValue = k) ∧
    (∀ m, 12 * 1000000000 ≤ (main env m).w.clock →
      (main env m).w.clock < 5 * 1000000000 * (2 ^ 63 - 1) →
      2 ≤ (main env m).w.counterValue) := by
  have hpow : (2 : Nat) ^ 63 = 9223372036854775808 := by norm_num
  refine ⟨?_, ?_, ?_, ?_, ?_, ?_⟩
  · rw [main_startup env h]
    exact (entryWorld_facts env).2.2.1
  · intro c c' hc
    rw [mainStep_clock env c c' hc]
  · intro k hk
    obtain ⟨j, rfl⟩ : ∃ j, k = j + 1 := ⟨k - 1, by omega⟩
    simp only [Nat.add_sub_cancel]
    obtain ⟨h1, h2, h3⟩ := afterIterations_spans env j
    have hen := afterIterations_enabled env j
    have hlen : (afterIterations env j).handed.length = j := by
      rw [afterIterations_handed]; simp
    have h5 : startupSteps + 5 * j + 5 = startupSteps + 5 * (j + 1) := by ring
    rw [main_loop_offset env h j 4, run_four, h5, main_loop env h (j + 1)]
    simp only [loopHead, makeMetricSpanLog_eq]
    refine ⟨trivial, ?_, ?_, ?_, ?_, trivial, ?_⟩
    · rw [afterIterations_clock]; ring
    · rw [afterIterations_counterTotal]; push_cast; ring
    · simp [emitted, recordOf, hen, hlen]
    · simp [h2, h3]
    · rw [afterIterations_clock]; ring
  · intro m hm
    by_cases hlt : m < 5
    · rw [(startup_pcs env h m hlt).2.2] at hm
      omega
    · obtain ⟨q, r, hr, rfl⟩ : ∃ q r, r < 5 ∧ m = startupSteps + 5 * q + r :=
        ⟨(m - 5) / 5, (m - 5) % 5, Nat.mod_lt _ (by norm_num), by
          simp only [startupSteps]; omega⟩
      rw [main_loop_offset env h q r] at hm ⊢
      obtain ⟨hc, hct, hh, ha, he⟩ := run_within_iteration env (afterIterations env q) r hr
      rw [hc, afterIterations_clock] at hm
      have hq : 3 ≤ q := by omega
      obtain ⟨_, h2, h3⟩ := afterIterations_spans env q
      have hlen : (afterIterations env q).handed.length = q := by
        rw [afterIterations_handed]; simp
      rw [afterIterations_counterTotal] at hct
      rw [hlen] at hh
      rw [h2, h3] at he
      refine ⟨?_, by omega, by omega, ?_⟩
      · have : (2 : Int) ≤ (q : Int) := by exact_mod_cast (by omega : 2 ≤ q)
        omega
      · intro ho
        have happ := afterIterations_appLog env q
        rw [ho] at happ
        simp only at happ
        rw [happ, hlen] at ha
        omega
  · intro k hk hlt
    obtain ⟨j, rfl⟩ : ∃ j, k = j + 1 := ⟨k - 1, by omega⟩
    simp only [Nat.add_sub_cancel]
    rw [main_loop_offset env h j 4, run_within_iteration_value env _ 4 (by norm_num),
      afterIterations_counterValue, wrapInt64_wrap_add]
    simp only [if_true]
    have hc : ((j : Int) + 1) = ((j + 1 : Nat) : Int) := by push_cast; rfl
    rw [hc, wrapInt64_natCast _ hlt]
  · intro m hm hup
    by_cases hlt : m < 5
    · rw [(startup_pcs env h m hlt).2.2] at hm
      omega
    · obtain ⟨q, r, hr, rfl⟩ : ∃ q r, r < 5 ∧ m = startupSteps + 5 * q + r :=
        ⟨(m - 5) / 5, (m - 5) % 5, Nat.mod_lt _ (by norm_num), by
          simp only [startupSteps]; omega⟩
      rw [main_loop_offset env h q r] at hm hup ⊢
      obtain ⟨hc, _⟩ := run_within_iteration env (afterIterations env q) r hr
      rw [hc, afterIterations_clock] at hm hup
      rw [hpow] at hup
      have hq : 3 ≤ q := by omega
      have hq1 : q + 1 < 2 ^ 63 := by rw [hpow]; omega
      have hq0 : q < 2 ^ 63 := by omega
      rw [run_within_iteration_value env _ r hr, afterIterations_counterValue,
        wrapInt64_wrap_add]
      have hc1 : ((q : Int) + 1) = ((q + 1 : Nat) : Int) := by push_cast; rfl
      rw [hc1, wrapInt64_natCast _ hq1, wrapInt64_natCast _ hq0]
      split
      · exact_mod_cast (by omega : 2 ≤ q + 1)
      · exact_mod_cast (by omega : 2 ≤ q)

theorem C8_five_second_period_witness :
    envOk.startupOk = true ∧ 1 ≤ 3 ∧
      (main envOk (startupSteps + 5 * (3 - 1) + 4)).pc = .atSleep ∧
      (main envOk (startupSteps + 5 * (3 - 1) + 4)).w.clock = 5 * (3 - 1) * 1000000000 ∧
      (main envOk (startupSteps + 5 * (3 - 1) + 4)).w.counterTotal = 3 ∧
      12 * 1000000000 ≤ (main envOk 20).w.clock ∧
      2 ≤ (main envOk 20).w.counterTotal ∧
      2 ≤ (main envOk 20).w.handed.length ∧
      2 ≤ (main envOk 20).w.appLog.length :=
  ⟨rfl, by decide,
    ((C8_five_second_period envOk rfl).2.2.1 3 (by decide)).1,
    ((C8_five_second_period envOk rfl).2.2.1 3 (by decide)).2.1,
    ((C8_five_second_period envOk rfl).2.2.1 3 (by decide)).2.2.1,
    by decide,
    ((C8_five_second_period envOk rfl).2.2.2.1 20 (by decide)).1,
    ((C8_five_second_period envOk rfl).2.2.2.1 20 (by decide)).2.1,
    ((C8_five_second_period envOk rfl).2.2.2.1 20 (by decide)).2.2.2 rfl⟩

/-- C9, as stated, fails: in the first iteration of a run where every call succeeds
the steps are not in the specified order; when the process is about to add to the
counter, the span of the iteration has already been ended and no span is open. -/
theorem C9_counterexample :
    (main envOk (startupSteps + 5)).w.events.map Event.kind ≠ specifiedOrder ∧
    (main envOk (startupSteps + 3)).pc = .atCounterAdd ∧
    (main envOk (startupSteps + 3)).w.openSpans = [] ∧
    (main envOk (startupSteps + 3)).w.ended = (main envOk (startupSteps + 3)).w.started ∧
    (main envOk (startupSteps + 3)).w.started.length = 1 := by
  decide

/-- C9, amended: every iteration performs, in this order, StartSpan, LogCorrelated,
EndSpan, IncrementCounter, Sleep; the span that is ended is the one that was started;
when the counter is about to be incremented the span has been ended and no span is
open; the increment (of the exact sum of the deltas, and in 64-bit signed arithmetic
of the value the SDK keeps) is done before the sleep begins. -/
theorem C9_step_order (env : Env) (h : env.startupOk = true) (n : Nat) :
    (main env (startupSteps + 5 * (n + 1))).w.events =
      (main env (startupSteps + 5 * n)).w.events ++
        [.StartSpan
           (tracerStart env (theTracer env) "work" (main env (startupSteps + 5 * n)).w).1,
         .Log
           { time := (main env (startupSteps + 5 * n)).w.clock,
             level := .InfoLevel,
             msg := "Did Work",
             fields :=
               [("service", "otel-docs"), ("env", "dev"), ("version", "0.1"),
                ("source", "app"),
                ("trace_id",
                  (tracerStart env (theTracer env) "work"
                    (main env (startupSteps + 5 * n)).w).1.traceID.String)] },
         .EndSpan
           (tracerStart env (theTracer env) "work" (main env (startupSteps + 5 * n)).w).1,
         .IncrementCounter 1,
         .Sleep (5 * Second)] ∧
    ((main env (startupSteps + 5 * (n + 1))).w.events.drop
        (main env (startupSteps + 5 * n)).w.events.length).map Event.kind =
      [.StartSpan, .LogCorrelated, .EndSpan, .IncrementCounter, .Sleep] ∧
    (main env (startupSteps + 5 * n + 3)).pc = .atCounterAdd ∧
    (main env (startupSteps + 5 * n + 3)).w.openSpans = [] ∧
    (main env (startupSteps + 5 * n + 3)).w.ended =
      (main env (startupSteps + 5 * n)).w.ended ++
        [(tracerStart env (theTracer env) "work" (main env (startupSteps + 5 * n)).w).1] ∧
    (main env (startupSteps + 5 * n + 3)).w.counterTotal = n ∧
    (main env (startupSteps + 5 * n + 4)).pc = .atSleep ∧
    (main env (startupSteps + 5 * n + 4)).w.counterTotal = n + 1 ∧
    (main env (startupSteps + 5 * n + 4)).w.clock =
      (main env (startupSteps + 5 * n)).w.clock ∧
    (main env (startupSteps + 5 * n + 3)).w.counterValue =
      (main env (startupSteps + 5 * n)).w.counterValue ∧
    (main env (startupSteps + 5 * n + 4)).w.counterValue =
      wrapInt64 ((main env (startupSteps + 5 * n)).w.counterValue + 1) := by
  have hen := afterIterations_enabled env n
  have hev : (main env (startupSteps + 5 * (n + 1))).w.events =
      (main env (startupSteps + 5 * n)).w.events ++
        [.StartSpan (spanOf env (theTracer env) (afterIterations env n)),
         .Log (recordOf env (theTracer env) (afterIterations env n)),
         .EndSpan (spanOf env (theTracer env) (afterIterations env n)),
         .IncrementCounter 1,
         .Sleep (5 * Second)] := by
    rw [main_loop env h n, main_loop env h (n + 1)]
    exact workLoop_events env (theTracer env) (theCounter env) n (entryWorld env)
      (entryWorld_facts env).2.1
  obtain ⟨ho, _, _⟩ := afterIterations_spans env n
  refine ⟨?_, ?_, ?_, ?_, ?_, ?_, ?_, ?_, ?_, ?_, ?_⟩
  · rw [hev, main_loop env h n]
    rfl
  · rw [hev]
    simp [Event.kind]
  · rw [main_loop_offset env h n 3, run_three]
  · rw [main_loop_offset env h n 3, run_three]
    simp [spanEnd, logInfo, logLog_eq, tracerStart, ho]
  · rw [main_loop_offset env h n 3, run_three, main_loop env h n]
    simp [spanEnd, logInfo, logLog_eq, tracerStart, loopHead]
  · rw [main_loop_offset env h n 3, run_three]
    simp only [spanEnd, logInfo, logLog_eq, tracerStart]
    split
    · exact afterIterations_counterTotal env n
    · exact afterIterations_counterTotal env n
  · rw [main_loop_offset env h n 4, run_four]
  · rw [main_loop_offset env h n 4, run_four]
    simp only [makeMetricSpanLog_eq]
    rw [afterIterations_counterTotal]
  · rw [main_loop_offset env h n 4, run_four, main_loop env h n]
    simp only [makeMetricSpanLog_eq, loopHead]
  · rw [main_loop_offset env h n 3, run_within_iteration_value env _ 3 (by norm_num),
      main_loop env h n]
    simp [loopHead]
  · rw [main_loop_offset env h n 4, run_within_iteration_value env _ 4 (by norm_num),
      main_loop env h n]
    simp [loopHead]

theorem C9_step_order_witness :
    envOk.startupOk = true ∧
      ((main envOk (startupSteps + 5 * (1 + 1))).w.events.drop
          (main envOk (startupSteps + 5 * 1)).w.events.length).map Event.kind =
        [.StartSpan, .LogCorrelated, .EndSpan, .IncrementCounter, .Sleep] ∧
      (main envOk (startupSteps + 5 * 1 + 3)).pc = .atCounterAdd ∧
      (main envOk (startupSteps + 5 * 1 + 3)).w.openSpans = [] :=
  ⟨rfl, (C9_step_order envOk rfl 1).2.1, (C9_step_order envOk rfl 1).2.2.1,
    (C9_step_order envOk rfl 1).2.2.2.1⟩

/-- C10 (no terminal state): in every reachable configuration inside the loop the
process takes a step, that step is the next statement of the loop body and stays
inside the loop; hence from then on `main` never panics, exits or returns, and the
shutdown of the tracer provider and of the meter provider is never run. -/
theorem C10_loop_never_terminates (env : Env) (n : Nat)
    (h : (main env n).pc.inLoop = true) :
    (∃ c', mainStep env (main env n) = some c' ∧ main env (n + 1) = c' ∧
      c'.pc.inLoop = true ∧ c'.pc.stage = (main env n).pc.stage.map StepKind.next) ∧
    ∀ k, (main env (n + k)).pc.inLoop = true ∧
      (main env (n + k)).pc ≠ .panicking ∧
      (∀ code, (main env (n + k)).pc ≠ .exited code) ∧
      mainStep env (main env (n + k)) ≠ none ∧
      (main env (n + k)).w.tpShutdown = false ∧
      (main env (n + k)).w.mpShutdown = false := by
  constructor
  · obtain ⟨c', h1, h2, h3, _⟩ := loop_step env _ (wellFormed_main env n) h
    exact ⟨c', h1, by rw [main_succ, h1], h2, h3⟩
  · intro k
    have hk := loop_forever env n h k
    obtain ⟨c', h1, _, _, h4, h5⟩ := loop_step env _ (wellFormed_main env (n + k)) hk
    refine ⟨hk, ?_, ?_, ?_, h4, h5⟩
    · intro hp
      rw [hp] at hk
      simp [PC.inLoop, PC.stage] at hk
    · intro code hp
      rw [hp] at hk
      simp [PC.inLoop, PC.stage] at hk
    · rw [h1]
      simp

theorem C10_loop_never_terminates_witness :
    (main envOk 7).pc.inLoop = true ∧
      ∀ k, (main envOk (7 + k)).pc.inLoop = true ∧
        (main envOk (7 + k)).pc ≠ .panicking ∧
        (∀ code, (main envOk (7 + k)).pc ≠ .exited code) ∧
        mainStep envOk (main envOk (7 + k)) ≠ none ∧
        (main envOk (7 + k)).w.tpShutdown = false ∧
        (main envOk (7 + k)).w.mpShutdown = false :=
  ⟨rfl, (C10_loop_never_terminates envOk 7 rfl).2⟩

end AppAll
